import Mathlib

/-!
# ProcessNextModInUserCollection

A shallow embedding of the coroutine
`Modio::Detail::ProcessNextModInUserCollection::operator()`
(modio/detail/ops/modmanagement/ProcessNextModInUserCollection.h).

The coroutine reads and writes the process-wide `SDKSessionData` singleton and
suspends at three asynchronous operations.  Here

* the singleton is an explicit value `SDKSessionData`;
* the shared `ModCollectionEntry` objects are addressed by their `ModID`
  (the key under which the collection maps hold them; `GetID()` of an entry
  never changes), so `EntryToProcess` is an `Option ModID`;
* every asynchronous operation the coroutine awaits is a field of `Env`: a
  function from the session at the `yield` to the session at the resumption
  together with the `ErrorCode` the coroutine is resumed with;
* one run of the coroutine is the function `ProcessNextModInUserCollection`,
  which returns the final session together with the ordered trace of the
  effects the coroutine performed.
-/

namespace Modio

/-- Identifier of a mod (`Modio::ModID`). -/
abbrev ModID := Nat

/-- Modelled from the spec: the enumeration `Modio::ModState`, declared in
ModioModCollectionEntry.h, which is not among the sources.  The constructors are
the lifecycle states of section 3; `Other` stands for the remaining
terminal/error states. -/
inductive ModState
  | None
  | InstallationPending
  | UpdatePending
  | UninstallPending
  | Installed
  | Uninstalled
  | Other (tag : Nat)
  deriving DecidableEq

/-- Modelled from the spec: the mutable members of a `Modio::ModCollectionEntry`
the coroutine depends on (the class is declared in ModioModCollectionEntry.h,
which is not among the sources): the lifecycle state returned by
`GetModState()` and the sticky no-retry flag set by `MarkModNoRetry()`. -/
structure ModCollectionEntry where
  CurrentState : ModState
  ShouldNotRetry : Bool
  deriving DecidableEq

/-- The type `Modio::ErrorCode` (`std::error_code`): an integer value and the
identity of its category.  Category `0` is `std::system_category()`. -/
structure ErrorCode where
  Value : Int
  Category : Nat
  deriving DecidableEq

/-- The default-constructed error code `{}`: value `0`, system category. -/
def ErrorCode.empty : ErrorCode := ⟨0, 0⟩

/-- The contextual conversion `if (ec)`: true exactly when the value is non-zero. -/
def ErrorCode.isError (ec : ErrorCode) : Bool := ec.Value != 0

/-- The error conditions of `Modio::ErrorConditionTypes` that the coroutine names. -/
inductive ErrorConditionTypes
  | NetworkError
  | ModInstallDeferredError
  | ModDeleteDeferredError
  deriving DecidableEq

/-- The member of `Modio::ApiError` that the coroutine names. -/
inductive ApiError
  | ExpiredOrRevokedAccessToken
  deriving DecidableEq

/-- The enumeration `Modio::ModManagementEvent::EventType`. -/
inductive EventType
  | Installed
  | Updated
  | Uninstalled
  deriving DecidableEq

/-- A record of the mod-management event log, as brace-initialised by the
coroutine: mod id, event type, status. -/
structure ModManagementEvent where
  ID : ModID
  Event : EventType
  Status : ErrorCode
  deriving DecidableEq

/-- The part of `Modio::Detail::SDKSessionData` the coroutine touches.
`Entry` gives the current contents of the shared entry object of each id,
`SystemModCollection` is `GetSystemModCollection().Entries()` in iteration
order, `ModManagementEventLog` is the content of `GetModManagementEventLog()`,
oldest record first. -/
structure SDKSessionData where
  Entry : ModID → ModCollectionEntry
  SystemModCollection : List ModID
  ModManagementEventLog : List ModManagementEvent

/-- The call `ModCollectionEntry::GetModState()` on the entry object of `e`. -/
def SDKSessionData.GetModState (s : SDKSessionData) (e : ModID) : ModState :=
  (s.Entry e).CurrentState

/-- The call `ModCollectionEntry::MarkModNoRetry()` on the entry object of `e`:
sets its no-retry flag and changes nothing else. -/
def SDKSessionData.MarkModNoRetry (s : SDKSessionData) (e : ModID) : SDKSessionData :=
  { s with Entry := fun m => if m = e then { s.Entry m with ShouldNotRetry := true } else s.Entry m }

/-- The call `GetModManagementEventLog().AddEntry(ev)`: appends one record. -/
def SDKSessionData.AddEntry (s : SDKSessionData) (ev : ModManagementEvent) : SDKSessionData :=
  { s with ModManagementEventLog := s.ModManagementEventLog ++ [ev] }

/-- What the coroutine uses and the sources do not define.  Each asynchronous
operation maps the session at the `yield` to the session at the resumption and
the error code the coroutine is resumed with. -/
structure Env where
  /-- The query `ModCollectionEntry::ShouldRetry()` of the entry object of an id. -/
  ShouldRetry : ModID → ModCollectionEntry → Bool
  /-- The ids of `SDKSessionData::FilterSystemModCollectionByUserSubscriptions().Entries()`
  in iteration order. -/
  FilterSystemModCollectionByUserSubscriptions : SDKSessionData → List ModID
  InstallOrUpdateModAsync : ModID → SDKSessionData → SDKSessionData × ErrorCode
  UninstallModAsync : ModID → SDKSessionData → SDKSessionData × ErrorCode
  SaveModCollectionToStorageAsync : SDKSessionData → SDKSessionData × ErrorCode
  /-- The table `Modio::ErrorCodeMatches(ec, ErrorConditionTypes)`. -/
  ErrorCodeMatches : ErrorCode → ErrorConditionTypes → Bool
  /-- The overload `Modio::ErrorCodeMatches(ec, ApiError)`. -/
  ErrorCodeMatchesApi : ErrorCode → ApiError → Bool
  /-- The error code of `Modio::ModManagementError::InstallOrUpdateCancelled`. -/
  InstallOrUpdateCancelled : ErrorCode

/-- The effects one run of the coroutine can perform, in the order of the trace. -/
inductive Effect
  | InstallOrUpdateModAsync (id : ModID)
  | UninstallModAsync (id : ModID)
  | AddEntry (ev : ModManagementEvent)
  | MarkModNoRetry (e : ModID)
  | SaveModCollectionToStorageAsync
  | complete (ec : ErrorCode)
  deriving DecidableEq

/-- The state of one run: the session and the effects performed so far. -/
structure Run where
  Session : SDKSessionData
  Trace : List Effect

/-- Body of the loop of lines 39-48: a retry-eligible `UninstallPending` entry
overwrites `EntryToProcess`. -/
def scanUninstallStep (env : Env) (s : SDKSessionData) (EntryToProcess : Option ModID)
    (ModEntry : ModID) : Option ModID :=
  if s.GetModState ModEntry = ModState.UninstallPending then
    if env.ShouldRetry ModEntry (s.Entry ModEntry) then some ModEntry else EntryToProcess
  else EntryToProcess

/-- Body of the loop of lines 55-66: a retry-eligible `InstallationPending` or
`UpdatePending` entry overwrites `EntryToProcess`. -/
def scanInstallStep (env : Env) (s : SDKSessionData) (EntryToProcess : Option ModID)
    (ModEntry : ModID) : Option ModID :=
  if s.GetModState ModEntry = ModState.InstallationPending ∨
      s.GetModState ModEntry = ModState.UpdatePending then
    if env.ShouldRetry ModEntry (s.Entry ModEntry) then some ModEntry else EntryToProcess
  else EntryToProcess

/-- Lines 37-48: `EntryToProcess = nullptr`, then the scan of the whole system
collection. -/
def scanPendingUninstalls (env : Env) (s : SDKSessionData) : Option ModID :=
  s.SystemModCollection.foldl (scanUninstallStep env s) none

/-- Lines 53-66: the scan of the collection filtered by the user subscriptions,
started with `EntryToProcess` still null. -/
def scanPendingInstalls (env : Env) (s : SDKSessionData) : Option ModID :=
  (env.FilterSystemModCollectionByUserSubscriptions s).foldl (scanInstallStep env s) none

/-- Lines 36-68: the value of `EntryToProcess` after the selection block. -/
def selectEntryToProcess (env : Env) (s : SDKSessionData) : Option ModID :=
  match scanPendingUninstalls env s with
  | some e => some e
  | none => scanPendingInstalls env s

/-- Appends `AddEntry(ev)` to the run. -/
def Run.AddEntry (r : Run) (ev : ModManagementEvent) : Run :=
  ⟨r.Session.AddEntry ev, r.Trace ++ [Effect.AddEntry ev]⟩

/-- Appends `EntryToProcess->MarkModNoRetry()` to the run. -/
def Run.MarkModNoRetry (r : Run) (e : ModID) : Run :=
  ⟨r.Session.MarkModNoRetry e, r.Trace ++ [Effect.MarkModNoRetry e]⟩

/-- Appends `Self.complete(ec)` to the run. -/
def Run.complete (r : Run) (ec : ErrorCode) : Run :=
  ⟨r.Session, r.Trace ++ [Effect.complete ec]⟩

/-- The statement `yield InstallOrUpdateModAsync(id, std::move(Self))`: the run at
the resumption and the `ec` the coroutine is resumed with. -/
def Run.InstallOrUpdateModAsync (r : Run) (env : Env) (id : ModID) : Run × ErrorCode :=
  (⟨(env.InstallOrUpdateModAsync id r.Session).1, r.Trace ++ [Effect.InstallOrUpdateModAsync id]⟩,
    (env.InstallOrUpdateModAsync id r.Session).2)

/-- The statement `yield UninstallModAsync(id, std::move(Self))`. -/
def Run.UninstallModAsync (r : Run) (env : Env) (id : ModID) : Run × ErrorCode :=
  (⟨(env.UninstallModAsync id r.Session).1, r.Trace ++ [Effect.UninstallModAsync id]⟩,
    (env.UninstallModAsync id r.Session).2)

/-- The statement `yield SaveModCollectionToStorageAsync(std::move(Self))`. -/
def Run.SaveModCollectionToStorageAsync (r : Run) (env : Env) : Run × ErrorCode :=
  (⟨(env.SaveModCollectionToStorageAsync r.Session).1,
      r.Trace ++ [Effect.SaveModCollectionToStorageAsync]⟩,
    (env.SaveModCollectionToStorageAsync r.Session).2)

/-- Lines 86-103: the failure branch after `InstallOrUpdateModAsync`; three
independent tests, each of which may call `MarkModNoRetry`, then
`Self.complete(ec)`. -/
def installFailed (env : Env) (r : Run) (e : ModID) (ec : ErrorCode) : Run :=
  let r1 :=
    if env.ErrorCodeMatches ec ErrorConditionTypes.NetworkError = true ∧
        ec ≠ env.InstallOrUpdateCancelled then r.MarkModNoRetry e else r
  let r2 :=
    if env.ErrorCodeMatches ec ErrorConditionTypes.ModInstallDeferredError = true then
      r1.MarkModNoRetry e else r1
  let r3 :=
    if env.ErrorCodeMatchesApi ec ApiError.ExpiredOrRevokedAccessToken = true then
      r2.MarkModNoRetry e else r2
  r3.complete ec

/-- Lines 74-111: the install/update branch for the selected entry `e`. -/
def installOrUpdateBranch (env : Env) (r : Run) (e : ModID) : Run :=
  let r1 := (r.InstallOrUpdateModAsync env e).1
  let ec := (r.InstallOrUpdateModAsync env e).2
  let r2 := r1.AddEntry
    { ID := e
      Event := if r1.Session.GetModState e = ModState.InstallationPending
        then EventType.Installed else EventType.Updated
      Status := ec }
  if ec.isError then installFailed env r2 e ec
  else ((r2.SaveModCollectionToStorageAsync env).1).complete ErrorCode.empty

/-- Lines 112-133: the uninstall branch for the selected entry `e`.  The test of
lines 119-121 has an empty body and is left out. -/
def uninstallBranch (env : Env) (r : Run) (e : ModID) : Run :=
  let r1 := (r.UninstallModAsync env e).1
  let ec := (r.UninstallModAsync env e).2
  let r2 := r1.AddEntry { ID := e, Event := EventType.Uninstalled, Status := ec }
  if ec.isError then (r2.MarkModNoRetry e).complete ec
  else ((r2.SaveModCollectionToStorageAsync env).1).complete ErrorCode.empty

/-- Lines 69-134: what the coroutine does with the value of `EntryToProcess`.
The last `else` is the end of the `reenter` block, reached without a call of
`Self.complete`. -/
def dispatch (env : Env) (s : SDKSessionData) (EntryToProcess : Option ModID) : Run :=
  match EntryToProcess with
  | none => Run.complete ⟨s, []⟩ ErrorCode.empty
  | some e =>
    if s.GetModState e = ModState.InstallationPending ∨
        s.GetModState e = ModState.UpdatePending then
      installOrUpdateBranch env ⟨s, []⟩ e
    else if s.GetModState e = ModState.UninstallPending then
      uninstallBranch env ⟨s, []⟩ e
    else ⟨s, []⟩

/-- One run of `ProcessNextModInUserCollection::operator()` from its first entry
to its end, started in session `s`. -/
def ProcessNextModInUserCollection (env : Env) (s : SDKSessionData) : Run :=
  dispatch env s (selectEntryToProcess env s)

/-- The arguments of the `Self.complete` calls of a trace, in order. -/
def completions (t : List Effect) : List ErrorCode :=
  t.filterMap fun
    | Effect.complete ec => some ec
    | _ => none

/-- The error code the run completed with, if it completed. -/
def Run.Result (r : Run) : Option ErrorCode := (completions r.Trace).head?

/-- Whether the Pass 1 scan accepts the entry of `m`: `UninstallPending` and
`ShouldRetry()` true. -/
def uninstallEligible (env : Env) (s : SDKSessionData) (m : ModID) : Bool :=
  decide (s.GetModState m = ModState.UninstallPending) && env.ShouldRetry m (s.Entry m)

/-- Whether the Pass 2 scan accepts the entry of `m`: `InstallationPending` or
`UpdatePending`, and `ShouldRetry()` true. -/
def installEligible (env : Env) (s : SDKSessionData) (m : ModID) : Bool :=
  decide (s.GetModState m = ModState.InstallationPending ∨
    s.GetModState m = ModState.UpdatePending) && env.ShouldRetry m (s.Entry m)

/-- The retry-suppression condition of lines 88-100 on an error code. -/
def suppressesRetry (env : Env) (ec : ErrorCode) : Bool :=
  (env.ErrorCodeMatches ec ErrorConditionTypes.NetworkError &&
      decide (ec ≠ env.InstallOrUpdateCancelled)) ||
    env.ErrorCodeMatches ec ErrorConditionTypes.ModInstallDeferredError ||
    env.ErrorCodeMatchesApi ec ApiError.ExpiredOrRevokedAccessToken

/-- The records of the `AddEntry` calls of a trace, in order. -/
def logAppends (t : List Effect) : List ModManagementEvent :=
  t.filterMap fun
    | Effect.AddEntry ev => some ev
    | _ => none

/-- Modelled from the spec: the part of the error taxonomy of section 7 that
concerns cancellation; the table behind `ErrorCodeMatches` is not among the
sources.  Cancellation is a kind of its own, always retryable: it is neither a
deferred install error nor an expired or revoked credential error. -/
def CancelledIsRetryableKind (env : Env) : Prop :=
  env.ErrorCodeMatches env.InstallOrUpdateCancelled
      ErrorConditionTypes.ModInstallDeferredError = false ∧
    env.ErrorCodeMatchesApi env.InstallOrUpdateCancelled
      ApiError.ExpiredOrRevokedAccessToken = false

/-! ## Concrete sessions and environments -/

/-- Error code of the HTTP category used in the examples: a network error. -/
def sampleNetworkError : ErrorCode := ⟨7, 1⟩

/-- Error code used in the examples for `InstallOrUpdateCancelled`. -/
def sampleCancelled : ErrorCode := ⟨3, 2⟩

/-- Error code used in the examples for a full disk: a deferred install error. -/
def sampleDeferred : ErrorCode := ⟨5, 3⟩

/-- Error code used in the examples for an expired access token. -/
def sampleExpiredToken : ErrorCode := ⟨11, 4⟩

/-- Error code used in the examples for a failure of no special class. -/
def sampleOtherError : ErrorCode := ⟨9, 5⟩

/-- Overwrites the lifecycle state of the entry of `e`. -/
def setModState (s : SDKSessionData) (e : ModID) (st : ModState) : SDKSessionData :=
  { s with Entry := fun m => if m = e then { s.Entry m with CurrentState := st } else s.Entry m }

/-- An environment for the examples.  An entry is retry-eligible while its
no-retry flag is clear; the user is subscribed to mods 2, 3 and 4; an install
or update reports `installEc` and, on success, leaves the entry `Installed`; an
uninstall reports `uninstallEc` and, on success, leaves the entry `Uninstalled`
and drops it from the system collection; saving reports `saveEc`.  The network
class is category 1 together with the cancellation code. -/
def sampleEnv (installEc uninstallEc saveEc : ErrorCode) : Env where
  ShouldRetry := fun _ c => !c.ShouldNotRetry
  FilterSystemModCollectionByUserSubscriptions := fun s =>
    s.SystemModCollection.filter fun m => decide (m = 2 ∨ m = 3 ∨ m = 4)
  InstallOrUpdateModAsync := fun id s =>
    (if installEc.isError then s else setModState s id ModState.Installed, installEc)
  UninstallModAsync := fun id s =>
    (if uninstallEc.isError then s
      else { setModState s id ModState.Uninstalled with
              SystemModCollection := s.SystemModCollection.filter fun m => decide (m ≠ id) },
      uninstallEc)
  SaveModCollectionToStorageAsync := fun s => (s, saveEc)
  ErrorCodeMatches := fun ec c =>
    match c with
    | ErrorConditionTypes.NetworkError => decide (ec.Category = 1) || decide (ec = sampleCancelled)
    | ErrorConditionTypes.ModInstallDeferredError => decide (ec = sampleDeferred)
    | ErrorConditionTypes.ModDeleteDeferredError => false
  ErrorCodeMatchesApi := fun ec _ => decide (ec = sampleExpiredToken)
  InstallOrUpdateCancelled := sampleCancelled

/-- A session for the examples: mod 1 `UninstallPending`, mod 2
`InstallationPending`, mod 3 `UpdatePending`, mod 5 `UninstallPending`, every
other mod `Installed`; no flag set; the system collection holds mods 1 to 5 and
the event log is empty. -/
def sampleSession : SDKSessionData where
  Entry := fun m =>
    if m = 1 ∨ m = 5 then ⟨ModState.UninstallPending, false⟩
    else if m = 2 then ⟨ModState.InstallationPending, false⟩
    else if m = 3 then ⟨ModState.UpdatePending, false⟩
    else ⟨ModState.Installed, false⟩
  SystemModCollection := [1, 2, 3, 4, 5]
  ModManagementEventLog := []

/-- A session with nothing left to do: mod 1 `UninstallPending` but marked
no-retry, mod 2 `Installed`, mod 6 `InstallationPending` but not subscribed. -/
def drainedSession : SDKSessionData where
  Entry := fun m =>
    if m = 1 then ⟨ModState.UninstallPending, true⟩
    else if m = 6 then ⟨ModState.InstallationPending, false⟩
    else ⟨ModState.Installed, false⟩
  SystemModCollection := [1, 2, 6]
  ModManagementEventLog := []

/-- A session whose only pending work is for the subscribed mods 2
(`InstallationPending`) and 3 (`UpdatePending`). -/
def installSession : SDKSessionData where
  Entry := fun m =>
    if m = 2 then ⟨ModState.InstallationPending, false⟩
    else if m = 3 then ⟨ModState.UpdatePending, false⟩
    else ⟨ModState.Installed, false⟩
  SystemModCollection := [2, 3, 4]
  ModManagementEventLog := []

/-- A session whose only pending work is the fresh install of the subscribed
mod 2 (`InstallationPending`). -/
def freshInstallSession : SDKSessionData where
  Entry := fun m =>
    if m = 2 then ⟨ModState.InstallationPending, false⟩ else ⟨ModState.Installed, false⟩
  SystemModCollection := [2, 4]
  ModManagementEventLog := []

/-- A session in which Pass 1 finds nothing and Pass 2 has a choice: mod 1 is
`UninstallPending` but marked no-retry, the subscribed mods 2
(`InstallationPending`) and 3 (`UpdatePending`) are eligible, and mod 6 is an
eligible `InstallationPending` entry the user is not subscribed to, last in the
system collection. -/
def mixedSession : SDKSessionData where
  Entry := fun m =>
    if m = 1 then ⟨ModState.UninstallPending, true⟩
    else if m = 2 ∨ m = 6 then ⟨ModState.InstallationPending, false⟩
    else if m = 3 then ⟨ModState.UpdatePending, false⟩
    else ⟨ModState.Installed, false⟩
  SystemModCollection := [1, 2, 3, 6]
  ModManagementEventLog := []

/-- The dispatches of the two lifecycle operations in a trace, in order. -/
def dispatches (t : List Effect) : List Effect :=
  t.filter fun
    | Effect.InstallOrUpdateModAsync _ => true
    | Effect.UninstallModAsync _ => true
    | _ => false

/-- The runs of `n` successive invocations of the coroutine, each started in the
session in which the previous one ended. -/
def runPasses (env : Env) : Nat → SDKSessionData → List Run
  | 0, _ => []
  | n + 1, s =>
    ProcessNextModInUserCollection env s ::
      runPasses env n (ProcessNextModInUserCollection env s).Session

/-- The session after `n` successive invocations of the coroutine. -/
def sessionAfterPasses (env : Env) : Nat → SDKSessionData → SDKSessionData
  | 0, s => s
  | n + 1, s => sessionAfterPasses env n (ProcessNextModInUserCollection env s).Session

/-- Assumption on the three asynchronous operations, which are not among the
sources: they return the event log as they received it, so that the log is
written through `AddEntry` only. -/
def OperationsLeaveLog (env : Env) : Prop :=
  (∀ id s, (env.InstallOrUpdateModAsync id s).1.ModManagementEventLog =
      s.ModManagementEventLog) ∧
    (∀ id s, (env.UninstallModAsync id s).1.ModManagementEventLog = s.ModManagementEventLog) ∧
    (∀ s, (env.SaveModCollectionToStorageAsync s).1.ModManagementEventLog =
      s.ModManagementEventLog)

/-- Assumption on the three asynchronous operations, which are not among the
sources: they return every entry object as they received it.  Under it the
difference between the entries before and after a run is what the coroutine
itself wrote. -/
def OperationsLeaveEntries (env : Env) : Prop :=
  (∀ id s, (env.InstallOrUpdateModAsync id s).1.Entry = s.Entry) ∧
    (∀ id s, (env.UninstallModAsync id s).1.Entry = s.Entry) ∧
    (∀ s, (env.SaveModCollectionToStorageAsync s).1.Entry = s.Entry)

/-- The sample session with one record already in the event log. -/
def loggedSession : SDKSessionData :=
  { sampleSession with ModManagementEventLog := [⟨9, EventType.Installed, ErrorCode.empty⟩] }

/-- The install session with one record already in the event log. -/
def loggedInstallSession : SDKSessionData :=
  { installSession with ModManagementEventLog := [⟨9, EventType.Installed, ErrorCode.empty⟩] }

/-- The drained session with one record already in the event log. -/
def loggedDrainedSession : SDKSessionData :=
  { drainedSession with ModManagementEventLog := [⟨9, EventType.Installed, ErrorCode.empty⟩] }

/-- A session without any pending entry: mods 2 and 4 `Installed`, mod 7
`Uninstalled`, one record in the event log. -/
def settledSession : SDKSessionData where
  Entry := fun m =>
    if m = 7 then ⟨ModState.Uninstalled, false⟩ else ⟨ModState.Installed, false⟩
  SystemModCollection := [2, 4, 7]
  ModManagementEventLog := [⟨2, EventType.Installed, ErrorCode.empty⟩]

/-! ## Lemmas on the two scans -/

theorem foldl_scanUninstallStep_eq (env : Env) (s : SDKSessionData) (l : List ModID)
    (init : Option ModID) :
    l.foldl (scanUninstallStep env s) init =
      ((l.filter (uninstallEligible env s)).getLast?).or init := by
  induction l using List.reverseRecOn with
  | nil => simp
  | append_singleton l a ih =>
    rw [List.foldl_append, List.filter_append]
    by_cases h : uninstallEligible env s a = true
    · have h2 := h
      simp only [uninstallEligible, Bool.and_eq_true, decide_eq_true_eq] at h2
      simp [scanUninstallStep, h, h2.1, h2.2]
    · have h2 : ¬ (s.GetModState a = ModState.UninstallPending ∧
          env.ShouldRetry a (s.Entry a) = true) := by
        simpa [uninstallEligible] using h
      have h3 : scanUninstallStep env s (l.foldl (scanUninstallStep env s) init) a
          = l.foldl (scanUninstallStep env s) init := by
        unfold scanUninstallStep
        by_cases hs : s.GetModState a = ModState.UninstallPending
        · have : env.ShouldRetry a (s.Entry a) = false := by
            cases hr : env.ShouldRetry a (s.Entry a)
            · rfl
            · exact absurd ⟨hs, hr⟩ h2
          simp [hs, this]
        · simp [hs]
      simp only [List.foldl_cons, List.foldl_nil]
      rw [h3, ih]
      simp [List.filter_cons, h]

theorem foldl_scanInstallStep_eq (env : Env) (s : SDKSessionData) (l : List ModID)
    (init : Option ModID) :
    l.foldl (scanInstallStep env s) init =
      ((l.filter (installEligible env s)).getLast?).or init := by
  induction l using List.reverseRecOn with
  | nil => simp
  | append_singleton l a ih =>
    rw [List.foldl_append, List.filter_append]
    by_cases h : installEligible env s a = true
    · have h2 := h
      simp only [installEligible, Bool.and_eq_true, decide_eq_true_eq] at h2
      simp [scanInstallStep, h, h2.1, h2.2]
    · have h2 : ¬ ((s.GetModState a = ModState.InstallationPending ∨
          s.GetModState a = ModState.UpdatePending) ∧
          env.ShouldRetry a (s.Entry a) = true) := by
        simpa [installEligible] using h
      have h3 : scanInstallStep env s (l.foldl (scanInstallStep env s) init) a
          = l.foldl (scanInstallStep env s) init := by
        unfold scanInstallStep
        by_cases hs : s.GetModState a = ModState.InstallationPending ∨
            s.GetModState a = ModState.UpdatePending
        · have : env.ShouldRetry a (s.Entry a) = false := by
            cases hr : env.ShouldRetry a (s.Entry a)
            · rfl
            · exact absurd ⟨hs, hr⟩ h2
          simp [hs, this]
        · simp [hs]
      simp only [List.foldl_cons, List.foldl_nil]
      rw [h3, ih]
      simp [List.filter_cons, h]

theorem scanPendingUninstalls_eq (env : Env) (s : SDKSessionData) :
    scanPendingUninstalls env s =
      (s.SystemModCollection.filter (uninstallEligible env s)).getLast? := by
  simp [scanPendingUninstalls, foldl_scanUninstallStep_eq]

theorem scanPendingInstalls_eq (env : Env) (s : SDKSessionData) :
    scanPendingInstalls env s =
      ((env.FilterSystemModCollectionByUserSubscriptions s).filter
        (installEligible env s)).getLast? := by
  simp [scanPendingInstalls, foldl_scanInstallStep_eq]

theorem scanPendingUninstalls_eq_none (env : Env) (s : SDKSessionData)
    (h : ∀ m ∈ s.SystemModCollection, ¬ (s.GetModState m = ModState.UninstallPending ∧
      env.ShouldRetry m (s.Entry m) = true)) :
    scanPendingUninstalls env s = none := by
  rw [scanPendingUninstalls_eq, List.getLast?_eq_none_iff, List.filter_eq_nil_iff]
  intro m hm
  simpa [uninstallEligible] using h m hm

theorem scanPendingInstalls_eq_none (env : Env) (s : SDKSessionData)
    (h : ∀ m ∈ env.FilterSystemModCollectionByUserSubscriptions s,
      ¬ ((s.GetModState m = ModState.InstallationPending ∨
          s.GetModState m = ModState.UpdatePending) ∧
        env.ShouldRetry m (s.Entry m) = true)) :
    scanPendingInstalls env s = none := by
  rw [scanPendingInstalls_eq, List.getLast?_eq_none_iff, List.filter_eq_nil_iff]
  intro m hm
  simpa [installEligible] using h m hm

theorem scanPendingUninstalls_some (env : Env) (s : SDKSessionData) (e : ModID)
    (h : scanPendingUninstalls env s = some e) :
    e ∈ s.SystemModCollection ∧ s.GetModState e = ModState.UninstallPending ∧
      env.ShouldRetry e (s.Entry e) = true := by
  rw [scanPendingUninstalls_eq] at h
  have hm : e ∈ s.SystemModCollection.filter (uninstallEligible env s) :=
    List.mem_of_getLast?_eq_some h
  rw [List.mem_filter] at hm
  have h2 := hm.2
  simp only [uninstallEligible, Bool.and_eq_true, decide_eq_true_eq] at h2
  exact ⟨hm.1, h2.1, h2.2⟩

theorem scanPendingInstalls_some (env : Env) (s : SDKSessionData) (e : ModID)
    (h : scanPendingInstalls env s = some e) :
    e ∈ env.FilterSystemModCollectionByUserSubscriptions s ∧
      (s.GetModState e = ModState.InstallationPending ∨
        s.GetModState e = ModState.UpdatePending) ∧
      env.ShouldRetry e (s.Entry e) = true := by
  rw [scanPendingInstalls_eq] at h
  have hm : e ∈ (env.FilterSystemModCollectionByUserSubscriptions s).filter
      (installEligible env s) := List.mem_of_getLast?_eq_some h
  rw [List.mem_filter] at hm
  have h2 := hm.2
  simp only [installEligible, Bool.and_eq_true, decide_eq_true_eq] at h2
  exact ⟨hm.1, h2.1, h2.2⟩

theorem scanPendingUninstalls_isSome (env : Env) (s : SDKSessionData)
    (h : ∃ m ∈ s.SystemModCollection, s.GetModState m = ModState.UninstallPending ∧
      env.ShouldRetry m (s.Entry m) = true) :
    ∃ e, scanPendingUninstalls env s = some e := by
  obtain ⟨m, hm, hst, hr⟩ := h
  cases hsc : scanPendingUninstalls env s with
  | some e => exact ⟨e, rfl⟩
  | none =>
    rw [scanPendingUninstalls_eq, List.getLast?_eq_none_iff, List.filter_eq_nil_iff] at hsc
    have := hsc m hm
    simp [uninstallEligible, hst, hr] at this

/-! ## Lemmas on the two branches -/

theorem uninstallBranch_trace (env : Env) (s : SDKSessionData) (e : ModID) :
    (uninstallBranch env ⟨s, []⟩ e).Trace =
      Effect.UninstallModAsync e ::
      Effect.AddEntry ⟨e, EventType.Uninstalled, (env.UninstallModAsync e s).2⟩ ::
      (if (env.UninstallModAsync e s).2.isError = true then
        [Effect.MarkModNoRetry e, Effect.complete (env.UninstallModAsync e s).2]
      else [Effect.SaveModCollectionToStorageAsync, Effect.complete ErrorCode.empty]) := by
  unfold uninstallBranch
  by_cases h : (env.UninstallModAsync e s).2.isError = true <;>
    simp [h, Run.UninstallModAsync, Run.AddEntry, Run.MarkModNoRetry, Run.complete,
      Run.SaveModCollectionToStorageAsync]

theorem dispatch_uninstall (env : Env) (s : SDKSessionData) (e : ModID)
    (h : s.GetModState e = ModState.UninstallPending) :
    dispatch env s (some e) = uninstallBranch env ⟨s, []⟩ e := by
  simp [dispatch, h]

theorem dispatch_install (env : Env) (s : SDKSessionData) (e : ModID)
    (h : s.GetModState e = ModState.InstallationPending ∨
      s.GetModState e = ModState.UpdatePending) :
    dispatch env s (some e) = installOrUpdateBranch env ⟨s, []⟩ e := by
  simp [dispatch, h]

/-! ## The claims -/

/-- C1: when no entry of the system collection is `UninstallPending` with
`ShouldRetry()` true and no entry of the subscription view is
`InstallationPending` or `UpdatePending` with `ShouldRetry()` true, one run
performs the single effect `Self.complete({})`: nothing is dispatched, nothing
is logged, nothing is saved, no entry is marked, and the session is unchanged. -/
theorem C1_nothing_eligible_completes_without_work (env : Env) (s : SDKSessionData)
    (hsys : ∀ m ∈ s.SystemModCollection, ¬ (s.GetModState m = ModState.UninstallPending ∧
      env.ShouldRetry m (s.Entry m) = true))
    (hsub : ∀ m ∈ env.FilterSystemModCollectionByUserSubscriptions s,
      ¬ ((s.GetModState m = ModState.InstallationPending ∨
          s.GetModState m = ModState.UpdatePending) ∧
        env.ShouldRetry m (s.Entry m) = true)) :
    (ProcessNextModInUserCollection env s).Trace = [Effect.complete ErrorCode.empty] ∧
      (ProcessNextModInUserCollection env s).Result = some ErrorCode.empty ∧
      (ProcessNextModInUserCollection env s).Session = s := by
  have hsel : selectEntryToProcess env s = none := by
    simp [selectEntryToProcess, scanPendingUninstalls_eq_none env s hsys,
      scanPendingInstalls_eq_none env s hsub]
  simp [ProcessNextModInUserCollection, hsel, dispatch, Run.complete, Run.Result, completions]

/-- Witness of C1 on the drained session, whose only `UninstallPending` entry is
marked no-retry and whose only `InstallationPending` entry is not subscribed. -/
theorem C1_witness :
    (ProcessNextModInUserCollection (sampleEnv ErrorCode.empty ErrorCode.empty ErrorCode.empty)
        drainedSession).Trace = [Effect.complete ErrorCode.empty] ∧
      (ProcessNextModInUserCollection (sampleEnv ErrorCode.empty ErrorCode.empty ErrorCode.empty)
        drainedSession).Result = some ErrorCode.empty ∧
      (ProcessNextModInUserCollection (sampleEnv ErrorCode.empty ErrorCode.empty ErrorCode.empty)
        drainedSession).Session = drainedSession :=
  C1_nothing_eligible_completes_without_work _ _ (by decide) (by decide)

/-- C2: when some entry of the system collection is `UninstallPending` with
`ShouldRetry()` true, the selected entry is such an entry of the system
collection, the run is the uninstall branch for it, its first effect is
`UninstallModAsync` for that entry, and no `InstallOrUpdateModAsync` occurs in
the trace, whatever the subscription view holds. -/
theorem C2_pending_uninstall_is_selected_first (env : Env) (s : SDKSessionData)
    (h : ∃ m ∈ s.SystemModCollection, s.GetModState m = ModState.UninstallPending ∧
      env.ShouldRetry m (s.Entry m) = true) :
    ∃ e, selectEntryToProcess env s = some e ∧ e ∈ s.SystemModCollection ∧
      s.GetModState e = ModState.UninstallPending ∧ env.ShouldRetry e (s.Entry e) = true ∧
      ProcessNextModInUserCollection env s = uninstallBranch env ⟨s, []⟩ e ∧
      (ProcessNextModInUserCollection env s).Trace.head? = some (Effect.UninstallModAsync e) ∧
      ∀ id, Effect.InstallOrUpdateModAsync id ∉ (ProcessNextModInUserCollection env s).Trace := by
  obtain ⟨e, he⟩ := scanPendingUninstalls_isSome env s h
  obtain ⟨hmem, hst, hr⟩ := scanPendingUninstalls_some env s e he
  have hsel : selectEntryToProcess env s = some e := by simp [selectEntryToProcess, he]
  have hrun : ProcessNextModInUserCollection env s = uninstallBranch env ⟨s, []⟩ e := by
    rw [ProcessNextModInUserCollection, hsel, dispatch_uninstall env s e hst]
  refine ⟨e, hsel, hmem, hst, hr, hrun, ?_, ?_⟩
  · rw [hrun, uninstallBranch_trace]; rfl
  · intro id
    rw [hrun, uninstallBranch_trace]
    by_cases hec : (env.UninstallModAsync e s).2.isError = true <;> simp [hec]

/-- Witness of C2 on the sample session, which holds two eligible
`UninstallPending` entries next to an eligible subscribed `InstallationPending`
and an eligible subscribed `UpdatePending` entry. -/
theorem C2_witness :
    ∃ e, selectEntryToProcess (sampleEnv ErrorCode.empty ErrorCode.empty ErrorCode.empty)
        sampleSession = some e ∧ e ∈ sampleSession.SystemModCollection ∧
      sampleSession.GetModState e = ModState.UninstallPending ∧
      (sampleEnv ErrorCode.empty ErrorCode.empty ErrorCode.empty).ShouldRetry e
        (sampleSession.Entry e) = true ∧
      ProcessNextModInUserCollection (sampleEnv ErrorCode.empty ErrorCode.empty ErrorCode.empty)
        sampleSession =
        uninstallBranch (sampleEnv ErrorCode.empty ErrorCode.empty ErrorCode.empty)
          ⟨sampleSession, []⟩ e ∧
      (ProcessNextModInUserCollection (sampleEnv ErrorCode.empty ErrorCode.empty ErrorCode.empty)
        sampleSession).Trace.head? = some (Effect.UninstallModAsync e) ∧
      ∀ id, Effect.InstallOrUpdateModAsync id ∉
        (ProcessNextModInUserCollection (sampleEnv ErrorCode.empty ErrorCode.empty ErrorCode.empty)
          sampleSession).Trace :=
  C2_pending_uninstall_is_selected_first _ _ ⟨1, by decide, by decide, by decide⟩

/-- C3: for a selected `InstallationPending` or `UpdatePending` entry whose
`InstallOrUpdateModAsync` returns a non-zero error code `ec`, the run calls
`MarkModNoRetry` on the entry exactly when `ec` matches `NetworkError` and is not
`InstallOrUpdateCancelled`, or matches `ModInstallDeferredError`, or matches
`ExpiredOrRevokedAccessToken`; no other entry is ever marked; when the condition
holds the entry ends with the flag set; otherwise every entry is left as the
operation returned it, so a flag the operation did not touch is as it was
before the run. -/
theorem C3_install_failure_marks_no_retry_iff (env : Env) (s : SDKSessionData) (e : ModID)
    (hsel : selectEntryToProcess env s = some e)
    (hst : s.GetModState e = ModState.InstallationPending ∨
      s.GetModState e = ModState.UpdatePending)
    (hec : (env.InstallOrUpdateModAsync e s).2.Value ≠ 0) :
    (Effect.MarkModNoRetry e ∈ (ProcessNextModInUserCollection env s).Trace ↔
      ((env.ErrorCodeMatches (env.InstallOrUpdateModAsync e s).2
            ErrorConditionTypes.NetworkError = true ∧
          (env.InstallOrUpdateModAsync e s).2 ≠ env.InstallOrUpdateCancelled) ∨
        env.ErrorCodeMatches (env.InstallOrUpdateModAsync e s).2
          ErrorConditionTypes.ModInstallDeferredError = true ∨
        env.ErrorCodeMatchesApi (env.InstallOrUpdateModAsync e s).2
          ApiError.ExpiredOrRevokedAccessToken = true)) ∧
    (∀ m, Effect.MarkModNoRetry m ∈ (ProcessNextModInUserCollection env s).Trace → m = e) ∧
    (Effect.MarkModNoRetry e ∈ (ProcessNextModInUserCollection env s).Trace →
      ((ProcessNextModInUserCollection env s).Session.Entry e).ShouldNotRetry = true) ∧
    (Effect.MarkModNoRetry e ∉ (ProcessNextModInUserCollection env s).Trace →
      (ProcessNextModInUserCollection env s).Session.Entry =
        (env.InstallOrUpdateModAsync e s).1.Entry) ∧
    (Effect.MarkModNoRetry e ∉ (ProcessNextModInUserCollection env s).Trace →
      ((env.InstallOrUpdateModAsync e s).1.Entry e).ShouldNotRetry = (s.Entry e).ShouldNotRetry →
      ((ProcessNextModInUserCollection env s).Session.Entry e).ShouldNotRetry =
        (s.Entry e).ShouldNotRetry) := by
  have herr : (env.InstallOrUpdateModAsync e s).2.isError = true := by
    simpa [ErrorCode.isError] using hec
  rw [ProcessNextModInUserCollection, hsel, dispatch_install env s e hst]
  unfold installOrUpdateBranch
  simp only [Run.InstallOrUpdateModAsync, herr, if_true]
  unfold installFailed
  by_cases h1 : env.ErrorCodeMatches (env.InstallOrUpdateModAsync e s).2
      ErrorConditionTypes.NetworkError = true ∧
      (env.InstallOrUpdateModAsync e s).2 ≠ env.InstallOrUpdateCancelled <;>
  by_cases h2 : env.ErrorCodeMatches (env.InstallOrUpdateModAsync e s).2
      ErrorConditionTypes.ModInstallDeferredError = true <;>
  by_cases h3 : env.ErrorCodeMatchesApi (env.InstallOrUpdateModAsync e s).2
      ApiError.ExpiredOrRevokedAccessToken = true <;>
  simp [h1, h2, h3, Run.AddEntry, Run.MarkModNoRetry, Run.complete,
    SDKSessionData.MarkModNoRetry, SDKSessionData.AddEntry]

/-- Witness of C3: in the session whose last eligible subscribed entry is mod 3
(`UpdatePending`), a network error marks mod 3 and a failure of no special class
does not. -/
theorem C3_witness :
    selectEntryToProcess (sampleEnv sampleNetworkError ErrorCode.empty ErrorCode.empty)
        installSession = some 3 ∧
      Effect.MarkModNoRetry 3 ∈
        (ProcessNextModInUserCollection
          (sampleEnv sampleNetworkError ErrorCode.empty ErrorCode.empty) installSession).Trace ∧
      Effect.MarkModNoRetry 3 ∉
        (ProcessNextModInUserCollection
          (sampleEnv sampleOtherError ErrorCode.empty ErrorCode.empty) installSession).Trace :=
  ⟨by decide,
    (C3_install_failure_marks_no_retry_iff
      (sampleEnv sampleNetworkError ErrorCode.empty ErrorCode.empty) installSession 3
      (by decide) (by decide) (by decide)).1.mpr (by decide),
    fun h => absurd
      ((C3_install_failure_marks_no_retry_iff
        (sampleEnv sampleOtherError ErrorCode.empty ErrorCode.empty) installSession 3
        (by decide) (by decide) (by decide)).1.mp h) (by decide)⟩

/-- C4: for a selected `InstallationPending` or `UpdatePending` entry whose
`InstallOrUpdateModAsync` fails with `InstallOrUpdateCancelled`, cancellation
being a retryable kind of its own as in the taxonomy of the spec, the run calls
`MarkModNoRetry` on no entry: its trace is the dispatch, the log append and the
completion with the cancellation code; every entry is left as the operation
returned it, so a flag the operation did not touch equals the flag before the
run. -/
theorem C4_cancelled_install_never_marks_no_retry (env : Env) (s : SDKSessionData)
    (e : ModID)
    (hsel : selectEntryToProcess env s = some e)
    (hst : s.GetModState e = ModState.InstallationPending ∨
      s.GetModState e = ModState.UpdatePending)
    (hcancel : (env.InstallOrUpdateModAsync e s).2 = env.InstallOrUpdateCancelled)
    (hfail : env.InstallOrUpdateCancelled.Value ≠ 0)
    (hkind : CancelledIsRetryableKind env) :
    (∀ m, Effect.MarkModNoRetry m ∉ (ProcessNextModInUserCollection env s).Trace) ∧
    (ProcessNextModInUserCollection env s).Trace =
      [Effect.InstallOrUpdateModAsync e,
        Effect.AddEntry ⟨e,
          if (env.InstallOrUpdateModAsync e s).1.GetModState e = ModState.InstallationPending
            then EventType.Installed else EventType.Updated,
          env.InstallOrUpdateCancelled⟩,
        Effect.complete env.InstallOrUpdateCancelled] ∧
    (ProcessNextModInUserCollection env s).Session.Entry =
      (env.InstallOrUpdateModAsync e s).1.Entry ∧
    (((env.InstallOrUpdateModAsync e s).1.Entry e).ShouldNotRetry = (s.Entry e).ShouldNotRetry →
      ((ProcessNextModInUserCollection env s).Session.Entry e).ShouldNotRetry =
        (s.Entry e).ShouldNotRetry) := by
  have herr : (env.InstallOrUpdateModAsync e s).2.isError = true := by
    rw [hcancel]; simpa [ErrorCode.isError] using hfail
  rw [ProcessNextModInUserCollection, hsel, dispatch_install env s e hst]
  unfold installOrUpdateBranch
  simp only [Run.InstallOrUpdateModAsync, herr, if_true]
  unfold installFailed
  simp [hcancel, hkind.1, hkind.2, Run.AddEntry, Run.complete, SDKSessionData.AddEntry]

/-- Witness of C4: the install of mod 3 is cancelled; in the sample table the
cancellation code matches `NetworkError` and nothing else. -/
theorem C4_witness :
    (sampleEnv sampleCancelled ErrorCode.empty ErrorCode.empty).ErrorCodeMatches sampleCancelled
        ErrorConditionTypes.NetworkError = true ∧
      (∀ m, Effect.MarkModNoRetry m ∉
        (ProcessNextModInUserCollection
          (sampleEnv sampleCancelled ErrorCode.empty ErrorCode.empty) installSession).Trace) ∧
      ((ProcessNextModInUserCollection
          (sampleEnv sampleCancelled ErrorCode.empty ErrorCode.empty)
          installSession).Session.Entry 3).ShouldNotRetry = false :=
  ⟨by decide,
    (C4_cancelled_install_never_marks_no_retry
      (sampleEnv sampleCancelled ErrorCode.empty ErrorCode.empty) installSession 3
      (by decide) (by decide) (by decide) (by decide) ⟨by decide, by decide⟩).1,
    (C4_cancelled_install_never_marks_no_retry
      (sampleEnv sampleCancelled ErrorCode.empty ErrorCode.empty) installSession 3
      (by decide) (by decide) (by decide) (by decide) ⟨by decide, by decide⟩).2.2.2 (by decide)⟩

/-- C5: for a selected `UninstallPending` entry whose `UninstallModAsync` returns
a non-zero error code `ec` of whatever class, the trace of the run is the
dispatch, the append of the record (entry id, `Uninstalled`, `ec`),
`MarkModNoRetry` on the entry and the completion with `ec`; the entry ends with
the no-retry flag set, the log is the log the operation returned followed by
that record, `SaveModCollectionToStorageAsync` is not called, and the run
completes with exactly `ec`. -/
theorem C5_uninstall_failure_always_marks_no_retry (env : Env) (s : SDKSessionData)
    (e : ModID)
    (hsel : selectEntryToProcess env s = some e)
    (hst : s.GetModState e = ModState.UninstallPending)
    (hec : (env.UninstallModAsync e s).2.Value ≠ 0) :
    (ProcessNextModInUserCollection env s).Trace =
      [Effect.UninstallModAsync e,
        Effect.AddEntry ⟨e, EventType.Uninstalled, (env.UninstallModAsync e s).2⟩,
        Effect.MarkModNoRetry e,
        Effect.complete (env.UninstallModAsync e s).2] ∧
    ((ProcessNextModInUserCollection env s).Session.Entry e).ShouldNotRetry = true ∧
    (ProcessNextModInUserCollection env s).Session.ModManagementEventLog =
      (env.UninstallModAsync e s).1.ModManagementEventLog ++
        [⟨e, EventType.Uninstalled, (env.UninstallModAsync e s).2⟩] ∧
    Effect.SaveModCollectionToStorageAsync ∉ (ProcessNextModInUserCollection env s).Trace ∧
    (ProcessNextModInUserCollection env s).Result = some (env.UninstallModAsync e s).2 := by
  have herr : (env.UninstallModAsync e s).2.isError = true := by
    simpa [ErrorCode.isError] using hec
  rw [ProcessNextModInUserCollection, hsel, dispatch_uninstall env s e hst]
  unfold uninstallBranch
  simp [Run.UninstallModAsync, herr, Run.AddEntry, Run.MarkModNoRetry, Run.complete,
    SDKSessionData.MarkModNoRetry, SDKSessionData.AddEntry, Run.Result, completions]

/-- Witness of C5: the removal of mod 5 fails with a network error, and with the
cancellation code. -/
theorem C5_witness :
    (ProcessNextModInUserCollection
        (sampleEnv ErrorCode.empty sampleNetworkError ErrorCode.empty) sampleSession).Trace =
      [Effect.UninstallModAsync 5,
        Effect.AddEntry ⟨5, EventType.Uninstalled, sampleNetworkError⟩,
        Effect.MarkModNoRetry 5,
        Effect.complete sampleNetworkError] ∧
    ((ProcessNextModInUserCollection
        (sampleEnv ErrorCode.empty sampleCancelled ErrorCode.empty)
        sampleSession).Session.Entry 5).ShouldNotRetry = true :=
  ⟨(C5_uninstall_failure_always_marks_no_retry
      (sampleEnv ErrorCode.empty sampleNetworkError ErrorCode.empty) sampleSession 5
      (by decide) (by decide) (by decide)).1,
    (C5_uninstall_failure_always_marks_no_retry
      (sampleEnv ErrorCode.empty sampleCancelled ErrorCode.empty) sampleSession 5
      (by decide) (by decide) (by decide)).2.1⟩

/-- C6: the code evaluated on a fresh install that succeeds.  Mod 2 is
`InstallationPending` before the dispatch, `InstallOrUpdateModAsync` reports
success and leaves it `Installed`, and the record the coroutine appends is
tagged `Updated`: the tag is computed from the state read after the operation
returned, not from the state before the dispatch. -/
theorem C6_fresh_install_success_is_logged_as_updated :
    selectEntryToProcess (sampleEnv ErrorCode.empty ErrorCode.empty ErrorCode.empty)
        freshInstallSession = some 2 ∧
      freshInstallSession.GetModState 2 = ModState.InstallationPending ∧
      ((sampleEnv ErrorCode.empty ErrorCode.empty ErrorCode.empty).InstallOrUpdateModAsync 2
        freshInstallSession).2 = ErrorCode.empty ∧
      ((sampleEnv ErrorCode.empty ErrorCode.empty ErrorCode.empty).InstallOrUpdateModAsync 2
        freshInstallSession).1.GetModState 2 = ModState.Installed ∧
      (ProcessNextModInUserCollection (sampleEnv ErrorCode.empty ErrorCode.empty ErrorCode.empty)
        freshInstallSession).Trace =
        [Effect.InstallOrUpdateModAsync 2,
          Effect.AddEntry ⟨2, EventType.Updated, ErrorCode.empty⟩,
          Effect.SaveModCollectionToStorageAsync,
          Effect.complete ErrorCode.empty] ∧
      (ProcessNextModInUserCollection (sampleEnv ErrorCode.empty ErrorCode.empty ErrorCode.empty)
        freshInstallSession).Session.ModManagementEventLog =
        [⟨2, EventType.Updated, ErrorCode.empty⟩] := by
  refine ⟨by decide, by decide, by decide, by decide, by decide, by decide⟩

/-- C7, counterexample: the install of mod 2 succeeds and the removal of mod 5
succeeds, `SaveModCollectionToStorageAsync` is called and reports the non-zero
code `sampleOtherError` in both runs, and both runs complete with the empty
code, not with the code of the save. -/
theorem C7_counterexample :
    sampleOtherError.Value ≠ 0 ∧
      (∀ s, ((sampleEnv ErrorCode.empty ErrorCode.empty sampleOtherError).SaveModCollectionToStorageAsync
        s).2 = sampleOtherError) ∧
      ((sampleEnv ErrorCode.empty ErrorCode.empty sampleOtherError).InstallOrUpdateModAsync 2
        freshInstallSession).2.Value = 0 ∧
      ((sampleEnv ErrorCode.empty ErrorCode.empty sampleOtherError).UninstallModAsync 5
        sampleSession).2.Value = 0 ∧
      (ProcessNextModInUserCollection (sampleEnv ErrorCode.empty ErrorCode.empty sampleOtherError)
        freshInstallSession).Trace =
        [Effect.InstallOrUpdateModAsync 2,
          Effect.AddEntry ⟨2, EventType.Updated, ErrorCode.empty⟩,
          Effect.SaveModCollectionToStorageAsync,
          Effect.complete ErrorCode.empty] ∧
      (ProcessNextModInUserCollection (sampleEnv ErrorCode.empty ErrorCode.empty sampleOtherError)
        freshInstallSession).Result ≠ some sampleOtherError ∧
      (ProcessNextModInUserCollection (sampleEnv ErrorCode.empty ErrorCode.empty sampleOtherError)
        sampleSession).Trace =
        [Effect.UninstallModAsync 5,
          Effect.AddEntry ⟨5, EventType.Uninstalled, ErrorCode.empty⟩,
          Effect.SaveModCollectionToStorageAsync,
          Effect.complete ErrorCode.empty] ∧
      (ProcessNextModInUserCollection (sampleEnv ErrorCode.empty ErrorCode.empty sampleOtherError)
        sampleSession).Result ≠ some sampleOtherError := by
  refine ⟨by decide, fun _ => rfl, by decide, by decide, by decide, by decide, by decide,
    by decide⟩

/-- C7, amended: in every run in which an entry is selected and its external
operation (install/update or removal) reports success,
`SaveModCollectionToStorageAsync` is called once and the run then completes
with the empty code, once, whatever the save reports. -/
theorem C7_save_result_is_not_reported (env : Env) (s : SDKSessionData) (e : ModID)
    (hsel : selectEntryToProcess env s = some e)
    (hok : ((s.GetModState e = ModState.InstallationPending ∨
          s.GetModState e = ModState.UpdatePending) ∧
        (env.InstallOrUpdateModAsync e s).2.Value = 0) ∨
      (s.GetModState e = ModState.UninstallPending ∧
        (env.UninstallModAsync e s).2.Value = 0)) :
    (ProcessNextModInUserCollection env s).Result = some ErrorCode.empty ∧
      completions (ProcessNextModInUserCollection env s).Trace = [ErrorCode.empty] ∧
      (ProcessNextModInUserCollection env s).Trace.count
        Effect.SaveModCollectionToStorageAsync = 1 ∧
      (ProcessNextModInUserCollection env s).Trace.getLast? =
        some (Effect.complete ErrorCode.empty) := by
  rcases hok with ⟨hst, hv⟩ | ⟨hst, hv⟩
  · have herr : (env.InstallOrUpdateModAsync e s).2.isError = false := by
      simp [ErrorCode.isError, hv]
    rw [ProcessNextModInUserCollection, hsel, dispatch_install env s e hst]
    unfold installOrUpdateBranch
    simp [Run.InstallOrUpdateModAsync, herr, Run.AddEntry, Run.complete,
      Run.SaveModCollectionToStorageAsync, Run.Result, completions]
  · have herr : (env.UninstallModAsync e s).2.isError = false := by
      simp [ErrorCode.isError, hv]
    rw [ProcessNextModInUserCollection, hsel, dispatch_uninstall env s e hst]
    unfold uninstallBranch
    simp [Run.UninstallModAsync, herr, Run.AddEntry, Run.complete,
      Run.SaveModCollectionToStorageAsync, Run.Result, completions]

/-- Witness of the amended C7 on both paths, with a save that fails. -/
theorem C7_witness :
    (ProcessNextModInUserCollection (sampleEnv ErrorCode.empty ErrorCode.empty sampleOtherError)
        freshInstallSession).Result = some ErrorCode.empty ∧
      (ProcessNextModInUserCollection (sampleEnv ErrorCode.empty ErrorCode.empty sampleOtherError)
        sampleSession).Result = some ErrorCode.empty :=
  ⟨(C7_save_result_is_not_reported
      (sampleEnv ErrorCode.empty ErrorCode.empty sampleOtherError) freshInstallSession 2
      (by decide) (Or.inl ⟨by decide, by decide⟩)).1,
    (C7_save_result_is_not_reported
      (sampleEnv ErrorCode.empty ErrorCode.empty sampleOtherError) sampleSession 5
      (by decide) (Or.inr ⟨by decide, by decide⟩)).1⟩

/-- C8: in every run in which an entry is selected and its external operation
reports success, the trace is exactly the dispatch of that operation, one
`AddEntry`, one `SaveModCollectionToStorageAsync` and the completion, in this
order; the save is called on the session the operation returned with that one
record appended to its log, and the run ends in the session the save returns. -/
theorem C8_success_trace_is_dispatch_log_save_complete (env : Env) (s : SDKSessionData)
    (e : ModID) (hsel : selectEntryToProcess env s = some e) :
    ((s.GetModState e = ModState.InstallationPending ∨
        s.GetModState e = ModState.UpdatePending) →
      (env.InstallOrUpdateModAsync e s).2.Value = 0 →
      (ProcessNextModInUserCollection env s).Trace =
        [Effect.InstallOrUpdateModAsync e,
          Effect.AddEntry ⟨e,
            if (env.InstallOrUpdateModAsync e s).1.GetModState e = ModState.InstallationPending
              then EventType.Installed else EventType.Updated,
            (env.InstallOrUpdateModAsync e s).2⟩,
          Effect.SaveModCollectionToStorageAsync, Effect.complete ErrorCode.empty] ∧
      (ProcessNextModInUserCollection env s).Session =
        (env.SaveModCollectionToStorageAsync
          { (env.InstallOrUpdateModAsync e s).1 with
            ModManagementEventLog :=
              (env.InstallOrUpdateModAsync e s).1.ModManagementEventLog ++
                [⟨e,
                  if (env.InstallOrUpdateModAsync e s).1.GetModState e =
                      ModState.InstallationPending
                    then EventType.Installed else EventType.Updated,
                  (env.InstallOrUpdateModAsync e s).2⟩] }).1) ∧
    (s.GetModState e = ModState.UninstallPending →
      (env.UninstallModAsync e s).2.Value = 0 →
      (ProcessNextModInUserCollection env s).Trace =
        [Effect.UninstallModAsync e,
          Effect.AddEntry ⟨e, EventType.Uninstalled, (env.UninstallModAsync e s).2⟩,
          Effect.SaveModCollectionToStorageAsync, Effect.complete ErrorCode.empty] ∧
      (ProcessNextModInUserCollection env s).Session =
        (env.SaveModCollectionToStorageAsync
          { (env.UninstallModAsync e s).1 with
            ModManagementEventLog :=
              (env.UninstallModAsync e s).1.ModManagementEventLog ++
                [⟨e, EventType.Uninstalled, (env.UninstallModAsync e s).2⟩] }).1) := by
  constructor
  · intro hst hv
    have herr : (env.InstallOrUpdateModAsync e s).2.isError = false := by
      simp [ErrorCode.isError, hv]
    rw [ProcessNextModInUserCollection, hsel, dispatch_install env s e hst]
    unfold installOrUpdateBranch
    simp [Run.InstallOrUpdateModAsync, herr, Run.AddEntry, Run.complete,
      Run.SaveModCollectionToStorageAsync, SDKSessionData.AddEntry]
  · intro hst hv
    have herr : (env.UninstallModAsync e s).2.isError = false := by
      simp [ErrorCode.isError, hv]
    rw [ProcessNextModInUserCollection, hsel, dispatch_uninstall env s e hst]
    unfold uninstallBranch
    simp [Run.UninstallModAsync, herr, Run.AddEntry, Run.complete,
      Run.SaveModCollectionToStorageAsync, SDKSessionData.AddEntry]

/-- Witness of C8 on both paths: the update of mod 3 and the removal of mod 5. -/
theorem C8_witness :
    (ProcessNextModInUserCollection (sampleEnv ErrorCode.empty ErrorCode.empty ErrorCode.empty)
        installSession).Trace =
      [Effect.InstallOrUpdateModAsync 3,
        Effect.AddEntry ⟨3, EventType.Updated, ErrorCode.empty⟩,
        Effect.SaveModCollectionToStorageAsync, Effect.complete ErrorCode.empty] ∧
    (ProcessNextModInUserCollection (sampleEnv ErrorCode.empty ErrorCode.empty ErrorCode.empty)
        sampleSession).Trace =
      [Effect.UninstallModAsync 5,
        Effect.AddEntry ⟨5, EventType.Uninstalled, ErrorCode.empty⟩,
        Effect.SaveModCollectionToStorageAsync, Effect.complete ErrorCode.empty] :=
  ⟨((C8_success_trace_is_dispatch_log_save_complete
      (sampleEnv ErrorCode.empty ErrorCode.empty ErrorCode.empty) installSession 3
      (by decide)).1 (by decide) (by decide)).1,
    ((C8_success_trace_is_dispatch_log_save_complete
      (sampleEnv ErrorCode.empty ErrorCode.empty ErrorCode.empty) sampleSession 5
      (by decide)).2 (by decide) (by decide)).1⟩

/-- C9: for a selected `InstallationPending` or `UpdatePending` entry whose
`InstallOrUpdateModAsync` returns a non-zero error code `ec`, the run completes
with exactly `ec`, `SaveModCollectionToStorageAsync` is not called, and exactly
one record is appended to the event log; it carries the id of the entry and
`ec`, and the final log is the log the operation returned followed by it. -/
theorem C9_install_failure_is_reported_unchanged (env : Env) (s : SDKSessionData) (e : ModID)
    (hsel : selectEntryToProcess env s = some e)
    (hst : s.GetModState e = ModState.InstallationPending ∨
      s.GetModState e = ModState.UpdatePending)
    (hec : (env.InstallOrUpdateModAsync e s).2.Value ≠ 0) :
    (ProcessNextModInUserCollection env s).Result = some (env.InstallOrUpdateModAsync e s).2 ∧
    completions (ProcessNextModInUserCollection env s).Trace =
      [(env.InstallOrUpdateModAsync e s).2] ∧
    Effect.SaveModCollectionToStorageAsync ∉ (ProcessNextModInUserCollection env s).Trace ∧
    (∃ ev : ModManagementEvent, ev.ID = e ∧ ev.Status = (env.InstallOrUpdateModAsync e s).2 ∧
      logAppends (ProcessNextModInUserCollection env s).Trace = [ev] ∧
      (ProcessNextModInUserCollection env s).Session.ModManagementEventLog =
        (env.InstallOrUpdateModAsync e s).1.ModManagementEventLog ++ [ev]) := by
  have herr : (env.InstallOrUpdateModAsync e s).2.isError = true := by
    simpa [ErrorCode.isError] using hec
  rw [ProcessNextModInUserCollection, hsel, dispatch_install env s e hst]
  unfold installOrUpdateBranch
  simp only [Run.InstallOrUpdateModAsync, herr, if_true]
  unfold installFailed
  refine ⟨?_, ?_, ?_, ⟨e, if (env.InstallOrUpdateModAsync e s).1.GetModState e =
      ModState.InstallationPending then EventType.Installed else EventType.Updated,
    (env.InstallOrUpdateModAsync e s).2⟩, rfl, rfl, ?_, ?_⟩ <;>
  by_cases h1 : env.ErrorCodeMatches (env.InstallOrUpdateModAsync e s).2
      ErrorConditionTypes.NetworkError = true ∧
      (env.InstallOrUpdateModAsync e s).2 ≠ env.InstallOrUpdateCancelled <;>
  by_cases h2 : env.ErrorCodeMatches (env.InstallOrUpdateModAsync e s).2
      ErrorConditionTypes.ModInstallDeferredError = true <;>
  by_cases h3 : env.ErrorCodeMatchesApi (env.InstallOrUpdateModAsync e s).2
      ApiError.ExpiredOrRevokedAccessToken = true <;>
  simp [h1, h2, h3, Run.AddEntry, Run.MarkModNoRetry, Run.complete, Run.Result, completions,
    logAppends, SDKSessionData.MarkModNoRetry, SDKSessionData.AddEntry]

/-- Witness of C9: the update of mod 3 fails with a network error. -/
theorem C9_witness :
    (ProcessNextModInUserCollection
        (sampleEnv sampleNetworkError ErrorCode.empty ErrorCode.empty) installSession).Result =
      some sampleNetworkError ∧
    Effect.SaveModCollectionToStorageAsync ∉
      (ProcessNextModInUserCollection
        (sampleEnv sampleNetworkError ErrorCode.empty ErrorCode.empty) installSession).Trace :=
  ⟨(C9_install_failure_is_reported_unchanged
      (sampleEnv sampleNetworkError ErrorCode.empty ErrorCode.empty) installSession 3
      (by decide) (by decide) (by decide)).1,
    (C9_install_failure_is_reported_unchanged
      (sampleEnv sampleNetworkError ErrorCode.empty ErrorCode.empty) installSession 3
      (by decide) (by decide) (by decide)).2.2.1⟩

/-- C10: Pass 1 is last-match-wins.  When the last entry, in the iteration order
of the system collection, among those that are `UninstallPending` with
`ShouldRetry()` true is `e`, the run selects `e` and dispatches
`UninstallModAsync` for `e`; in particular every eligible entry before `e` in the
scan is passed over. -/
theorem C10_pass_one_selects_last_eligible (env : Env) (s : SDKSessionData) (e : ModID)
    (hlast : (s.SystemModCollection.filter (uninstallEligible env s)).getLast? = some e) :
    scanPendingUninstalls env s = some e ∧
      selectEntryToProcess env s = some e ∧
      (ProcessNextModInUserCollection env s).Trace.head? = some (Effect.UninstallModAsync e) := by
  have hscan : scanPendingUninstalls env s = some e := by
    rw [scanPendingUninstalls_eq, hlast]
  have hsel : selectEntryToProcess env s = some e := by simp [selectEntryToProcess, hscan]
  have hst := (scanPendingUninstalls_some env s e hscan).2.1
  refine ⟨hscan, hsel, ?_⟩
  rw [ProcessNextModInUserCollection, hsel, dispatch_uninstall env s e hst, uninstallBranch_trace]
  rfl

/-- Witness of C10: in the sample session mods 1 and 5 are both eligible
`UninstallPending` entries; the scan order is 1, 2, 3, 4, 5 and mod 5 is
selected, not mod 1. -/
theorem C10_witness :
    sampleSession.SystemModCollection.filter
        (uninstallEligible (sampleEnv ErrorCode.empty ErrorCode.empty ErrorCode.empty)
          sampleSession) = [1, 5] ∧
      selectEntryToProcess (sampleEnv ErrorCode.empty ErrorCode.empty ErrorCode.empty)
        sampleSession = some 5 ∧
      (ProcessNextModInUserCollection (sampleEnv ErrorCode.empty ErrorCode.empty ErrorCode.empty)
        sampleSession).Trace.head? = some (Effect.UninstallModAsync 5) :=
  ⟨by decide,
    (C10_pass_one_selects_last_eligible
      (sampleEnv ErrorCode.empty ErrorCode.empty ErrorCode.empty) sampleSession 5
      (by decide)).2⟩

/-! ## Further lemmas on the selection -/

theorem selectEntryToProcess_of_no_uninstall (env : Env) (s : SDKSessionData)
    (h : scanPendingUninstalls env s = none) :
    selectEntryToProcess env s = scanPendingInstalls env s := by
  simp [selectEntryToProcess, h]

theorem selectEntryToProcess_some (env : Env) (s : SDKSessionData) (e : ModID)
    (h : selectEntryToProcess env s = some e) :
    (s.GetModState e = ModState.UninstallPending ∧ e ∈ s.SystemModCollection) ∨
      ((s.GetModState e = ModState.InstallationPending ∨
          s.GetModState e = ModState.UpdatePending) ∧
        e ∈ env.FilterSystemModCollectionByUserSubscriptions s) := by
  unfold selectEntryToProcess at h
  cases hu : scanPendingUninstalls env s with
  | some u =>
    rw [hu] at h
    simp only [Option.some.injEq] at h
    subst h
    have := scanPendingUninstalls_some env s u hu
    exact Or.inl ⟨this.2.1, this.1⟩
  | none =>
    rw [hu] at h
    have := scanPendingInstalls_some env s e h
    exact Or.inr ⟨this.2.1, this.1⟩

/-! ## The claims, continued -/

/-- C11: when no entry of the system collection is `UninstallPending` with
`ShouldRetry()` true (entries that are `UninstallPending` without being
retry-eligible are allowed), the selected entry is the last one, in the
iteration order of the subscription view, that is `InstallationPending` or
`UpdatePending` with `ShouldRetry()` true; a selected entry is dispatched to
`InstallOrUpdateModAsync`; an id that is not in the subscription view is never
selected. -/
theorem C11_pass_two_selects_last_eligible_subscribed (env : Env) (s : SDKSessionData)
    (hnone : ∀ m ∈ s.SystemModCollection, ¬ (s.GetModState m = ModState.UninstallPending ∧
      env.ShouldRetry m (s.Entry m) = true)) :
    selectEntryToProcess env s =
        ((env.FilterSystemModCollectionByUserSubscriptions s).filter
          (installEligible env s)).getLast? ∧
      (∀ e, selectEntryToProcess env s = some e →
        (ProcessNextModInUserCollection env s).Trace.head? =
          some (Effect.InstallOrUpdateModAsync e)) ∧
      (∀ m, m ∉ env.FilterSystemModCollectionByUserSubscriptions s →
        selectEntryToProcess env s ≠ some m) := by
  have hu := scanPendingUninstalls_eq_none env s hnone
  have hsel := selectEntryToProcess_of_no_uninstall env s hu
  refine ⟨by rw [hsel, scanPendingInstalls_eq], ?_, ?_⟩
  · intro e he
    have hst := (scanPendingInstalls_some env s e (hsel ▸ he)).2.1
    rw [ProcessNextModInUserCollection, he, dispatch_install env s e hst]
    unfold installOrUpdateBranch installFailed
    by_cases herr : (env.InstallOrUpdateModAsync e s).2.isError = true
    · by_cases h1 : env.ErrorCodeMatches (env.InstallOrUpdateModAsync e s).2
          ErrorConditionTypes.NetworkError = true ∧
          (env.InstallOrUpdateModAsync e s).2 ≠ env.InstallOrUpdateCancelled <;>
      by_cases h2 : env.ErrorCodeMatches (env.InstallOrUpdateModAsync e s).2
          ErrorConditionTypes.ModInstallDeferredError = true <;>
      by_cases h3 : env.ErrorCodeMatchesApi (env.InstallOrUpdateModAsync e s).2
          ApiError.ExpiredOrRevokedAccessToken = true <;>
      simp [herr, h1, h2, h3, Run.InstallOrUpdateModAsync, Run.AddEntry, Run.MarkModNoRetry,
        Run.complete]
    · simp [herr, Run.InstallOrUpdateModAsync, Run.AddEntry, Run.complete,
        Run.SaveModCollectionToStorageAsync]
  · intro m hm he
    exact hm (scanPendingInstalls_some env s m (hsel ▸ he)).1

/-- Witness of C11 on the mixed session: mod 1 is `UninstallPending` but not
retry-eligible and does not block Pass 2; the eligible subscribed entries are
mods 2 and 3 and mod 3 is selected; the eligible mod 6, last in the system
collection but not subscribed, is not. -/
theorem C11_witness :
    (((sampleEnv ErrorCode.empty ErrorCode.empty ErrorCode.empty).FilterSystemModCollectionByUserSubscriptions
          mixedSession).filter
        (installEligible (sampleEnv ErrorCode.empty ErrorCode.empty ErrorCode.empty)
          mixedSession) = [2, 3]) ∧
      installEligible (sampleEnv ErrorCode.empty ErrorCode.empty ErrorCode.empty)
        mixedSession 6 = true ∧
      selectEntryToProcess (sampleEnv ErrorCode.empty ErrorCode.empty ErrorCode.empty)
        mixedSession = some 3 ∧
      selectEntryToProcess (sampleEnv ErrorCode.empty ErrorCode.empty ErrorCode.empty)
        mixedSession ≠ some 6 :=
  ⟨by decide, by decide,
    (C11_pass_two_selects_last_eligible_subscribed
      (sampleEnv ErrorCode.empty ErrorCode.empty ErrorCode.empty) mixedSession
      (by decide)).1.trans (by decide),
    (C11_pass_two_selects_last_eligible_subscribed
      (sampleEnv ErrorCode.empty ErrorCode.empty ErrorCode.empty) mixedSession
      (by decide)).2.2 6 (by decide)⟩

theorem installOrUpdateBranch_trace (env : Env) (s : SDKSessionData) (e : ModID) :
    (installOrUpdateBranch env ⟨s, []⟩ e).Trace =
      Effect.InstallOrUpdateModAsync e ::
      Effect.AddEntry ⟨e,
        if (env.InstallOrUpdateModAsync e s).1.GetModState e = ModState.InstallationPending
          then EventType.Installed else EventType.Updated,
        (env.InstallOrUpdateModAsync e s).2⟩ ::
      (if (env.InstallOrUpdateModAsync e s).2.isError = true then
        (if env.ErrorCodeMatches (env.InstallOrUpdateModAsync e s).2
              ErrorConditionTypes.NetworkError = true ∧
            (env.InstallOrUpdateModAsync e s).2 ≠ env.InstallOrUpdateCancelled
          then [Effect.MarkModNoRetry e] else []) ++
        (if env.ErrorCodeMatches (env.InstallOrUpdateModAsync e s).2
              ErrorConditionTypes.ModInstallDeferredError = true
          then [Effect.MarkModNoRetry e] else []) ++
        (if env.ErrorCodeMatchesApi (env.InstallOrUpdateModAsync e s).2
              ApiError.ExpiredOrRevokedAccessToken = true
          then [Effect.MarkModNoRetry e] else []) ++
        [Effect.complete (env.InstallOrUpdateModAsync e s).2]
      else [Effect.SaveModCollectionToStorageAsync, Effect.complete ErrorCode.empty]) := by
  unfold installOrUpdateBranch installFailed
  by_cases herr : (env.InstallOrUpdateModAsync e s).2.isError = true
  · by_cases h1 : env.ErrorCodeMatches (env.InstallOrUpdateModAsync e s).2
        ErrorConditionTypes.NetworkError = true ∧
        (env.InstallOrUpdateModAsync e s).2 ≠ env.InstallOrUpdateCancelled <;>
    by_cases h2 : env.ErrorCodeMatches (env.InstallOrUpdateModAsync e s).2
        ErrorConditionTypes.ModInstallDeferredError = true <;>
    by_cases h3 : env.ErrorCodeMatchesApi (env.InstallOrUpdateModAsync e s).2
        ApiError.ExpiredOrRevokedAccessToken = true <;>
    simp [herr, h1, h2, h3, Run.InstallOrUpdateModAsync, Run.AddEntry, Run.MarkModNoRetry,
      Run.complete]
  · simp [herr, Run.InstallOrUpdateModAsync, Run.AddEntry, Run.complete,
      Run.SaveModCollectionToStorageAsync]

/-- C12: a run that selects the entry `e` dispatches exactly one lifecycle
operation, keyed by `e`.  For every other id `B`: no operation is dispatched
for `B`, no record the run appends to the event log names `B`,
`MarkModNoRetry` is not called on `B`, and when the operations for `e` and the
save leave the entry object of `B` as it is, the entry object of `B` after the
run is the one before the run. -/
theorem C12_only_the_selected_entry_is_processed (env : Env) (s : SDKSessionData) (e : ModID)
    (hsel : selectEntryToProcess env s = some e) :
    (dispatches (ProcessNextModInUserCollection env s).Trace =
        [Effect.InstallOrUpdateModAsync e] ∨
      dispatches (ProcessNextModInUserCollection env s).Trace = [Effect.UninstallModAsync e]) ∧
    ∀ B, B ≠ e →
      Effect.InstallOrUpdateModAsync B ∉ (ProcessNextModInUserCollection env s).Trace ∧
      Effect.UninstallModAsync B ∉ (ProcessNextModInUserCollection env s).Trace ∧
      (∀ ev ∈ logAppends (ProcessNextModInUserCollection env s).Trace, ev.ID ≠ B) ∧
      Effect.MarkModNoRetry B ∉ (ProcessNextModInUserCollection env s).Trace ∧
      ((∀ s1, ((env.InstallOrUpdateModAsync e s1).1.Entry B) = s1.Entry B) →
        (∀ s1, ((env.UninstallModAsync e s1).1.Entry B) = s1.Entry B) →
        (∀ s1, ((env.SaveModCollectionToStorageAsync s1).1.Entry B) = s1.Entry B) →
        (ProcessNextModInUserCollection env s).Session.Entry B = s.Entry B) := by
  rcases selectEntryToProcess_some env s e hsel with ⟨hst, -⟩ | ⟨hst, -⟩
  · have hrun : ProcessNextModInUserCollection env s = uninstallBranch env ⟨s, []⟩ e := by
      rw [ProcessNextModInUserCollection, hsel, dispatch_uninstall env s e hst]
    constructor
    · right
      rw [hrun, uninstallBranch_trace]
      by_cases herr : (env.UninstallModAsync e s).2.isError = true <;> simp [herr, dispatches]
    · intro B hB
      have hB2 : e ≠ B := fun h => hB h.symm
      refine ⟨?_, ?_, ?_, ?_, ?_⟩
      · rw [hrun, uninstallBranch_trace]
        by_cases herr : (env.UninstallModAsync e s).2.isError = true <;> simp [herr]
      · rw [hrun, uninstallBranch_trace]
        by_cases herr : (env.UninstallModAsync e s).2.isError = true <;> simp [herr, hB]
      · rw [hrun, uninstallBranch_trace]
        by_cases herr : (env.UninstallModAsync e s).2.isError = true <;>
          simp [herr, logAppends, hB2]
      · rw [hrun, uninstallBranch_trace]
        by_cases herr : (env.UninstallModAsync e s).2.isError = true <;> simp [herr, hB]
      · intro _ hU hS
        rw [hrun]
        unfold uninstallBranch
        by_cases herr : (env.UninstallModAsync e s).2.isError = true <;>
          simp [herr, Run.UninstallModAsync, Run.AddEntry, Run.MarkModNoRetry, Run.complete,
            Run.SaveModCollectionToStorageAsync, SDKSessionData.MarkModNoRetry,
            SDKSessionData.AddEntry, hU, hS, hB]
  · have hrun : ProcessNextModInUserCollection env s = installOrUpdateBranch env ⟨s, []⟩ e := by
      rw [ProcessNextModInUserCollection, hsel, dispatch_install env s e hst]
    constructor
    · left
      rw [hrun, installOrUpdateBranch_trace]
      split_ifs <;> simp [dispatches]
    · intro B hB
      have hB2 : e ≠ B := fun h => hB h.symm
      refine ⟨?_, ?_, ?_, ?_, ?_⟩
      · rw [hrun, installOrUpdateBranch_trace]
        split_ifs <;> simp [hB]
      · rw [hrun, installOrUpdateBranch_trace]
        split_ifs <;> simp
      · rw [hrun, installOrUpdateBranch_trace]
        split_ifs <;> simp [logAppends, hB2]
      · rw [hrun, installOrUpdateBranch_trace]
        split_ifs <;> simp [hB]
      · intro hI _ hS
        rw [hrun]
        unfold installOrUpdateBranch installFailed
        by_cases herr : (env.InstallOrUpdateModAsync e s).2.isError = true
        · by_cases h1 : env.ErrorCodeMatches (env.InstallOrUpdateModAsync e s).2
              ErrorConditionTypes.NetworkError = true ∧
              (env.InstallOrUpdateModAsync e s).2 ≠ env.InstallOrUpdateCancelled <;>
          by_cases h2 : env.ErrorCodeMatches (env.InstallOrUpdateModAsync e s).2
              ErrorConditionTypes.ModInstallDeferredError = true <;>
          by_cases h3 : env.ErrorCodeMatchesApi (env.InstallOrUpdateModAsync e s).2
              ApiError.ExpiredOrRevokedAccessToken = true <;>
          simp [herr, h1, h2, h3, Run.InstallOrUpdateModAsync, Run.AddEntry,
            Run.MarkModNoRetry, Run.complete, SDKSessionData.MarkModNoRetry,
            SDKSessionData.AddEntry, hI, hB]
        · simp [herr, Run.InstallOrUpdateModAsync, Run.AddEntry, Run.complete,
            Run.SaveModCollectionToStorageAsync, SDKSessionData.AddEntry, hI, hS]

/-- Witness of C12 on the sample session: mod 5 (`UninstallPending`) is
selected and its removal succeeds; the eligible subscribed mod 2
(`InstallationPending`) gets no dispatch, no record, no mark, and its entry
object is as before. -/
theorem C12_witness :
    dispatches (ProcessNextModInUserCollection
        (sampleEnv ErrorCode.empty ErrorCode.empty ErrorCode.empty) sampleSession).Trace =
      [Effect.UninstallModAsync 5] ∧
    Effect.InstallOrUpdateModAsync 2 ∉ (ProcessNextModInUserCollection
        (sampleEnv ErrorCode.empty ErrorCode.empty ErrorCode.empty) sampleSession).Trace ∧
    (∀ ev ∈ logAppends (ProcessNextModInUserCollection
        (sampleEnv ErrorCode.empty ErrorCode.empty ErrorCode.empty) sampleSession).Trace,
      ev.ID ≠ 2) ∧
    (ProcessNextModInUserCollection
        (sampleEnv ErrorCode.empty ErrorCode.empty ErrorCode.empty) sampleSession).Session.Entry 2 =
      sampleSession.Entry 2 :=
  ⟨by decide,
    ((C12_only_the_selected_entry_is_processed
      (sampleEnv ErrorCode.empty ErrorCode.empty ErrorCode.empty) sampleSession 5
      (by decide)).2 2 (by decide)).1,
    ((C12_only_the_selected_entry_is_processed
      (sampleEnv ErrorCode.empty ErrorCode.empty ErrorCode.empty) sampleSession 5
      (by decide)).2 2 (by decide)).2.2.1,
    ((C12_only_the_selected_entry_is_processed
      (sampleEnv ErrorCode.empty ErrorCode.empty ErrorCode.empty) sampleSession 5
      (by decide)).2 2 (by decide)).2.2.2.2 (fun _ => rfl) (fun _ => rfl) (fun _ => rfl)⟩

/-! ## Lemmas on runs that select nothing -/

theorem run_of_select_none (env : Env) (s : SDKSessionData)
    (h : selectEntryToProcess env s = none) :
    ProcessNextModInUserCollection env s = ⟨s, [Effect.complete ErrorCode.empty]⟩ := by
  simp [ProcessNextModInUserCollection, h, dispatch, Run.complete]

theorem select_none_of_no_pending (env : Env) (s : SDKSessionData)
    (hsys : ∀ m ∈ s.SystemModCollection, s.GetModState m ≠ ModState.UninstallPending)
    (hsub : ∀ m ∈ env.FilterSystemModCollectionByUserSubscriptions s,
      s.GetModState m ≠ ModState.InstallationPending ∧
        s.GetModState m ≠ ModState.UpdatePending) :
    selectEntryToProcess env s = none := by
  have h1 : scanPendingUninstalls env s = none :=
    scanPendingUninstalls_eq_none env s (fun m hm h => hsys m hm h.1)
  have h2 : scanPendingInstalls env s = none :=
    scanPendingInstalls_eq_none env s (fun m hm h => by
      rcases h.1 with h3 | h3
      · exact (hsub m hm).1 h3
      · exact (hsub m hm).2 h3)
  simp [selectEntryToProcess, h1, h2]

theorem runPasses_of_select_none (env : Env) (s : SDKSessionData)
    (h : selectEntryToProcess env s = none) (n : Nat) :
    runPasses env n s = List.replicate n ⟨s, [Effect.complete ErrorCode.empty]⟩ ∧
      sessionAfterPasses env n s = s := by
  induction n with
  | zero => exact ⟨rfl, rfl⟩
  | succ n ih =>
    constructor
    · simp only [runPasses, run_of_select_none env s h, List.replicate_succ]
      rw [ih.1]
    · simp only [sessionAfterPasses, run_of_select_none env s h]
      exact ih.2

/-- C13: on a collection in which no entry of the system collection and no
entry of the subscription view is `UninstallPending`, `InstallationPending` or
`UpdatePending`, `n` runs in sequence, for every `n`, end in the session they
started in, so the event log has the same length; each of the `n` runs
completes with the empty code, and none calls
`SaveModCollectionToStorageAsync` or `AddEntry`. -/
theorem C13_passes_on_settled_collection_do_nothing (env : Env) (s : SDKSessionData)
    (hsys : ∀ m ∈ s.SystemModCollection,
      s.GetModState m ≠ ModState.UninstallPending ∧
        s.GetModState m ≠ ModState.InstallationPending ∧
        s.GetModState m ≠ ModState.UpdatePending)
    (hsub : ∀ m ∈ env.FilterSystemModCollectionByUserSubscriptions s,
      s.GetModState m ≠ ModState.UninstallPending ∧
        s.GetModState m ≠ ModState.InstallationPending ∧
        s.GetModState m ≠ ModState.UpdatePending)
    (n : Nat) :
    (runPasses env n s).length = n ∧
      sessionAfterPasses env n s = s ∧
      (sessionAfterPasses env n s).ModManagementEventLog.length =
        s.ModManagementEventLog.length ∧
      ∀ r ∈ runPasses env n s,
        r.Result = some ErrorCode.empty ∧
        Effect.SaveModCollectionToStorageAsync ∉ r.Trace ∧
        logAppends r.Trace = [] ∧
        r.Session.ModManagementEventLog = s.ModManagementEventLog := by
  have hnone : selectEntryToProcess env s = none :=
    select_none_of_no_pending env s (fun m hm => (hsys m hm).1)
      (fun m hm => ⟨(hsub m hm).2.1, (hsub m hm).2.2⟩)
  obtain ⟨hruns, hfinal⟩ := runPasses_of_select_none env s hnone n
  refine ⟨by rw [hruns, List.length_replicate], hfinal, by rw [hfinal], ?_⟩
  intro r hr
  rw [hruns] at hr
  have hreq := List.eq_of_mem_replicate hr
  subst hreq
  simp [Run.Result, completions, logAppends]

/-- Witness of C13: five runs on the settled session. -/
theorem C13_witness :
    (runPasses (sampleEnv ErrorCode.empty ErrorCode.empty ErrorCode.empty) 5
        settledSession).length = 5 ∧
      sessionAfterPasses (sampleEnv ErrorCode.empty ErrorCode.empty ErrorCode.empty) 5
        settledSession = settledSession ∧
      (runPasses (sampleEnv ErrorCode.empty ErrorCode.empty ErrorCode.empty) 5
        settledSession).map Run.Result = List.replicate 5 (some ErrorCode.empty) :=
  ⟨(C13_passes_on_settled_collection_do_nothing
      (sampleEnv ErrorCode.empty ErrorCode.empty ErrorCode.empty) settledSession
      (by decide) (by decide) 5).1,
    (C13_passes_on_settled_collection_do_nothing
      (sampleEnv ErrorCode.empty ErrorCode.empty ErrorCode.empty) settledSession
      (by decide) (by decide) 5).2.1,
    by decide⟩

/-- C14: when the asynchronous operations leave the event log as it is, the log
after a run is the log before the run followed by the records the run appended
through `AddEntry`, in order: none when no entry was selected, exactly one,
naming the selected entry, when one was, whatever the operations report. -/
theorem C14_event_log_is_append_only (env : Env) (s : SDKSessionData)
    (hlog : OperationsLeaveLog env) :
    (ProcessNextModInUserCollection env s).Session.ModManagementEventLog =
        s.ModManagementEventLog ++ logAppends (ProcessNextModInUserCollection env s).Trace ∧
      (logAppends (ProcessNextModInUserCollection env s).Trace).length ≤ 1 ∧
      (selectEntryToProcess env s = none →
        logAppends (ProcessNextModInUserCollection env s).Trace = []) ∧
      (∀ e, selectEntryToProcess env s = some e →
        ∃ ev : ModManagementEvent, ev.ID = e ∧
          logAppends (ProcessNextModInUserCollection env s).Trace = [ev]) := by
  obtain ⟨hI, hU, hS⟩ := hlog
  cases hsel : selectEntryToProcess env s with
  | none =>
    rw [run_of_select_none env s hsel]
    simp [logAppends]
  | some e =>
    rcases selectEntryToProcess_some env s e hsel with ⟨hst, -⟩ | ⟨hst, -⟩
    · rw [ProcessNextModInUserCollection, hsel, dispatch_uninstall env s e hst]
      unfold uninstallBranch
      by_cases herr : (env.UninstallModAsync e s).2.isError = true <;>
        simp [herr, Run.UninstallModAsync, Run.AddEntry, Run.MarkModNoRetry, Run.complete,
          Run.SaveModCollectionToStorageAsync, SDKSessionData.MarkModNoRetry,
          SDKSessionData.AddEntry, logAppends, hU, hS]
    · rw [ProcessNextModInUserCollection, hsel, dispatch_install env s e hst]
      unfold installOrUpdateBranch installFailed
      by_cases herr : (env.InstallOrUpdateModAsync e s).2.isError = true
      · by_cases h1 : env.ErrorCodeMatches (env.InstallOrUpdateModAsync e s).2
            ErrorConditionTypes.NetworkError = true ∧
            (env.InstallOrUpdateModAsync e s).2 ≠ env.InstallOrUpdateCancelled <;>
        by_cases h2 : env.ErrorCodeMatches (env.InstallOrUpdateModAsync e s).2
            ErrorConditionTypes.ModInstallDeferredError = true <;>
        by_cases h3 : env.ErrorCodeMatchesApi (env.InstallOrUpdateModAsync e s).2
            ApiError.ExpiredOrRevokedAccessToken = true <;>
        simp [herr, h1, h2, h3, Run.InstallOrUpdateModAsync, Run.AddEntry,
          Run.MarkModNoRetry, Run.complete, SDKSessionData.MarkModNoRetry,
          SDKSessionData.AddEntry, logAppends, hI]
      · simp [herr, Run.InstallOrUpdateModAsync, Run.AddEntry, Run.complete,
          Run.SaveModCollectionToStorageAsync, SDKSessionData.AddEntry, logAppends, hI, hS]

/-- Witness of C14 on three sessions whose log already holds one record: a
removal that fails, an update that succeeds, and a run that selects nothing. -/
theorem C14_witness :
    (ProcessNextModInUserCollection
        (sampleEnv ErrorCode.empty sampleNetworkError ErrorCode.empty)
        loggedSession).Session.ModManagementEventLog =
      [⟨9, EventType.Installed, ErrorCode.empty⟩,
        ⟨5, EventType.Uninstalled, sampleNetworkError⟩] ∧
    (ProcessNextModInUserCollection
        (sampleEnv ErrorCode.empty ErrorCode.empty ErrorCode.empty)
        loggedInstallSession).Session.ModManagementEventLog =
      [⟨9, EventType.Installed, ErrorCode.empty⟩, ⟨3, EventType.Updated, ErrorCode.empty⟩] ∧
    (ProcessNextModInUserCollection
        (sampleEnv ErrorCode.empty ErrorCode.empty ErrorCode.empty)
        loggedDrainedSession).Session.ModManagementEventLog =
      [⟨9, EventType.Installed, ErrorCode.empty⟩] :=
  ⟨(C14_event_log_is_append_only
      (sampleEnv ErrorCode.empty sampleNetworkError ErrorCode.empty) loggedSession
      ⟨fun _ _ => rfl, fun _ _ => rfl, fun _ => rfl⟩).1.trans (by decide),
    (C14_event_log_is_append_only
      (sampleEnv ErrorCode.empty ErrorCode.empty ErrorCode.empty) loggedInstallSession
      ⟨fun _ _ => rfl, fun _ _ => rfl, fun _ => rfl⟩).1.trans (by decide),
    (C14_event_log_is_append_only
      (sampleEnv ErrorCode.empty ErrorCode.empty ErrorCode.empty) loggedDrainedSession
      ⟨fun _ _ => rfl, fun _ _ => rfl, fun _ => rfl⟩).1.trans (by decide)⟩

/-! ## Selection depends on the collection, the view, the states and the retry answers -/

theorem selectEntryToProcess_congr (env : Env) (s s2 : SDKSessionData)
    (hcoll : s2.SystemModCollection = s.SystemModCollection)
    (hview : env.FilterSystemModCollectionByUserSubscriptions s2 =
      env.FilterSystemModCollectionByUserSubscriptions s)
    (hsys : ∀ m ∈ s.SystemModCollection, s2.GetModState m = s.GetModState m ∧
      env.ShouldRetry m (s2.Entry m) = env.ShouldRetry m (s.Entry m))
    (hsub : ∀ m ∈ env.FilterSystemModCollectionByUserSubscriptions s,
      s2.GetModState m = s.GetModState m ∧
      env.ShouldRetry m (s2.Entry m) = env.ShouldRetry m (s.Entry m)) :
    selectEntryToProcess env s2 = selectEntryToProcess env s := by
  have h1 : s.SystemModCollection.filter (uninstallEligible env s2) =
      s.SystemModCollection.filter (uninstallEligible env s) := by
    apply List.filter_congr
    intro m hm
    simp [uninstallEligible, (hsys m hm).1, (hsys m hm).2]
  have h2 : (env.FilterSystemModCollectionByUserSubscriptions s).filter (installEligible env s2) =
      (env.FilterSystemModCollectionByUserSubscriptions s).filter (installEligible env s) := by
    apply List.filter_congr
    intro m hm
    simp [installEligible, (hsub m hm).1, (hsub m hm).2]
  unfold selectEntryToProcess
  rw [scanPendingUninstalls_eq, scanPendingUninstalls_eq, scanPendingInstalls_eq,
    scanPendingInstalls_eq, hcoll, hview, h1, h2]

/-- C15: let a run select the `InstallationPending` or `UpdatePending` entry `e`
and let `InstallOrUpdateModAsync` fail with a code outside the three suppressed
classes.  Then the run calls `MarkModNoRetry` on no entry, and if at the start of
the next run the system collection, the subscription view, and the state and
the `ShouldRetry()` answer of each of their entries are what they were, the
next run selects `e` again and dispatches `InstallOrUpdateModAsync` for `e`
again, as its only dispatch. -/
theorem C15_retryable_failure_is_selected_again (env : Env) (s : SDKSessionData) (e : ModID)
    (hsel : selectEntryToProcess env s = some e)
    (hst : s.GetModState e = ModState.InstallationPending ∨
      s.GetModState e = ModState.UpdatePending)
    (hec : (env.InstallOrUpdateModAsync e s).2.Value ≠ 0)
    (hnot : ¬ ((env.ErrorCodeMatches (env.InstallOrUpdateModAsync e s).2
            ErrorConditionTypes.NetworkError = true ∧
          (env.InstallOrUpdateModAsync e s).2 ≠ env.InstallOrUpdateCancelled) ∨
        env.ErrorCodeMatches (env.InstallOrUpdateModAsync e s).2
          ErrorConditionTypes.ModInstallDeferredError = true ∨
        env.ErrorCodeMatchesApi (env.InstallOrUpdateModAsync e s).2
          ApiError.ExpiredOrRevokedAccessToken = true))
    (hcoll : (ProcessNextModInUserCollection env s).Session.SystemModCollection =
      s.SystemModCollection)
    (hview : env.FilterSystemModCollectionByUserSubscriptions
        (ProcessNextModInUserCollection env s).Session =
      env.FilterSystemModCollectionByUserSubscriptions s)
    (hsys : ∀ m ∈ s.SystemModCollection,
      (ProcessNextModInUserCollection env s).Session.GetModState m = s.GetModState m ∧
      env.ShouldRetry m ((ProcessNextModInUserCollection env s).Session.Entry m) =
        env.ShouldRetry m (s.Entry m))
    (hsub : ∀ m ∈ env.FilterSystemModCollectionByUserSubscriptions s,
      (ProcessNextModInUserCollection env s).Session.GetModState m = s.GetModState m ∧
      env.ShouldRetry m ((ProcessNextModInUserCollection env s).Session.Entry m) =
        env.ShouldRetry m (s.Entry m)) :
    (∀ m, Effect.MarkModNoRetry m ∉ (ProcessNextModInUserCollection env s).Trace) ∧
      selectEntryToProcess env (ProcessNextModInUserCollection env s).Session = some e ∧
      (ProcessNextModInUserCollection env
        (ProcessNextModInUserCollection env s).Session).Trace.head? =
        some (Effect.InstallOrUpdateModAsync e) ∧
      dispatches (ProcessNextModInUserCollection env
        (ProcessNextModInUserCollection env s).Session).Trace =
        [Effect.InstallOrUpdateModAsync e] := by
  have herr : (env.InstallOrUpdateModAsync e s).2.isError = true := by
    simpa [ErrorCode.isError] using hec
  have hmem : e ∈ env.FilterSystemModCollectionByUserSubscriptions s := by
    rcases selectEntryToProcess_some env s e hsel with ⟨hu, -⟩ | ⟨-, hm⟩
    · rcases hst with h | h <;> rw [hu] at h <;> cases h
    · exact hm
  have hsel2 : selectEntryToProcess env (ProcessNextModInUserCollection env s).Session =
      some e := by
    rw [selectEntryToProcess_congr env s _ hcoll hview hsys hsub, hsel]
  have hst2 : (ProcessNextModInUserCollection env s).Session.GetModState e =
        ModState.InstallationPending ∨
      (ProcessNextModInUserCollection env s).Session.GetModState e =
        ModState.UpdatePending := by
    rw [(hsub e hmem).1]; exact hst
  have hrun2 : ProcessNextModInUserCollection env (ProcessNextModInUserCollection env s).Session =
      installOrUpdateBranch env ⟨(ProcessNextModInUserCollection env s).Session, []⟩ e := by
    conv_lhs => rw [ProcessNextModInUserCollection, hsel2, dispatch_install env _ e hst2]
  refine ⟨?_, hsel2, ?_, ?_⟩
  · intro m
    rw [ProcessNextModInUserCollection, hsel, dispatch_install env s e hst,
      installOrUpdateBranch_trace]
    have h1 : ¬ (env.ErrorCodeMatches (env.InstallOrUpdateModAsync e s).2
          ErrorConditionTypes.NetworkError = true ∧
        (env.InstallOrUpdateModAsync e s).2 ≠ env.InstallOrUpdateCancelled) :=
      fun h => hnot (Or.inl h)
    have h2 : ¬ env.ErrorCodeMatches (env.InstallOrUpdateModAsync e s).2
        ErrorConditionTypes.ModInstallDeferredError = true := fun h => hnot (Or.inr (Or.inl h))
    have h3 : ¬ env.ErrorCodeMatchesApi (env.InstallOrUpdateModAsync e s).2
        ApiError.ExpiredOrRevokedAccessToken = true := fun h => hnot (Or.inr (Or.inr h))
    rw [if_pos herr, if_neg h1, if_neg h2, if_neg h3]
    simp
  · rw [hrun2, installOrUpdateBranch_trace]; rfl
  · rw [hrun2, installOrUpdateBranch_trace]
    split_ifs <;> simp [dispatches]

/-- Witness of C15: the update of mod 3 is cancelled; the next run selects mod 3
again. -/
theorem C15_witness :
    selectEntryToProcess (sampleEnv sampleCancelled ErrorCode.empty ErrorCode.empty)
        (ProcessNextModInUserCollection
          (sampleEnv sampleCancelled ErrorCode.empty ErrorCode.empty) installSession).Session =
      some 3 ∧
    dispatches (ProcessNextModInUserCollection
        (sampleEnv sampleCancelled ErrorCode.empty ErrorCode.empty)
        (ProcessNextModInUserCollection
          (sampleEnv sampleCancelled ErrorCode.empty ErrorCode.empty) installSession).Session).Trace =
      [Effect.InstallOrUpdateModAsync 3] :=
  ⟨(C15_retryable_failure_is_selected_again
      (sampleEnv sampleCancelled ErrorCode.empty ErrorCode.empty) installSession 3
      (by decide) (by decide) (by decide) (by decide) (by decide) (by decide) (by decide)
      (by decide)).2.1,
    (C15_retryable_failure_is_selected_again
      (sampleEnv sampleCancelled ErrorCode.empty ErrorCode.empty) installSession 3
      (by decide) (by decide) (by decide) (by decide) (by decide) (by decide) (by decide)
      (by decide)).2.2.2⟩

/-- C16: the entry the two scans select is `InstallationPending`,
`UpdatePending` or `UninstallPending` when the dispatch reads its state, so a
run is the immediate completion, the install/update branch or the uninstall
branch; its trace holds exactly one `Self.complete` call, which is its last
effect, and the end of the `reenter` block without a completion, whose trace
would be empty, is never reached. -/
theorem C16_dispatch_is_total (env : Env) (s : SDKSessionData) :
    (∀ e, selectEntryToProcess env s = some e →
      s.GetModState e = ModState.InstallationPending ∨
        s.GetModState e = ModState.UpdatePending ∨
        s.GetModState e = ModState.UninstallPending) ∧
    ((selectEntryToProcess env s = none ∧
        ProcessNextModInUserCollection env s = Run.complete ⟨s, []⟩ ErrorCode.empty) ∨
      (∃ e, selectEntryToProcess env s = some e ∧
        (s.GetModState e = ModState.InstallationPending ∨
          s.GetModState e = ModState.UpdatePending) ∧
        ProcessNextModInUserCollection env s = installOrUpdateBranch env ⟨s, []⟩ e) ∨
      (∃ e, selectEntryToProcess env s = some e ∧
        s.GetModState e = ModState.UninstallPending ∧
        ProcessNextModInUserCollection env s = uninstallBranch env ⟨s, []⟩ e)) ∧
    (∃ ec, completions (ProcessNextModInUserCollection env s).Trace = [ec] ∧
      (ProcessNextModInUserCollection env s).Trace.getLast? = some (Effect.complete ec)) ∧
    (ProcessNextModInUserCollection env s).Trace ≠ [] := by
  cases hsel : selectEntryToProcess env s with
  | none =>
    rw [run_of_select_none env s hsel]
    refine ⟨?_, ?_, ?_, ?_⟩
    · intro e he
      cases he
    · exact Or.inl ⟨rfl, rfl⟩
    · exact ⟨ErrorCode.empty, by simp [completions]⟩
    · simp
  | some e =>
    rcases selectEntryToProcess_some env s e hsel with ⟨hst, -⟩ | ⟨hst, -⟩
    · have hrun : ProcessNextModInUserCollection env s = uninstallBranch env ⟨s, []⟩ e := by
        rw [ProcessNextModInUserCollection, hsel, dispatch_uninstall env s e hst]
      refine ⟨?_, Or.inr (Or.inr ⟨e, rfl, hst, hrun⟩), ?_, ?_⟩
      · intro e2 he2
        simp only [Option.some.injEq] at he2
        subst he2
        exact Or.inr (Or.inr hst)
      · rw [hrun, uninstallBranch_trace]
        by_cases herr : (env.UninstallModAsync e s).2.isError = true
        · exact ⟨(env.UninstallModAsync e s).2, by simp [herr, completions]⟩
        · exact ⟨ErrorCode.empty, by simp [herr, completions]⟩
      · rw [hrun, uninstallBranch_trace]; simp
    · have hrun : ProcessNextModInUserCollection env s =
          installOrUpdateBranch env ⟨s, []⟩ e := by
        rw [ProcessNextModInUserCollection, hsel, dispatch_install env s e hst]
      refine ⟨?_, Or.inr (Or.inl ⟨e, rfl, hst, hrun⟩), ?_, ?_⟩
      · intro e2 he2
        simp only [Option.some.injEq] at he2
        subst he2
        rcases hst with h | h
        · exact Or.inl h
        · exact Or.inr (Or.inl h)
      · rw [hrun, installOrUpdateBranch_trace]
        by_cases herr : (env.InstallOrUpdateModAsync e s).2.isError = true
        · refine ⟨(env.InstallOrUpdateModAsync e s).2, ?_⟩
          rw [if_pos herr]
          split_ifs <;> simp [completions]
        · exact ⟨ErrorCode.empty, by simp [herr, completions]⟩
      · rw [hrun, installOrUpdateBranch_trace]; simp

/-- C17: a run that selects nothing, and a run whose lifecycle operation reports
success, call `MarkModNoRetry` on no entry; a `MarkModNoRetry` call of any run is
on the selected entry.  When the asynchronous operations leave the entry
objects as they are, so that every difference is the coroutine's own write,
then after any run every entry has the lifecycle state it had before, a
no-retry flag that was set is still set, and an entry object that differs from
the one before the run is the selected entry on which the run called
`MarkModNoRetry`. -/
theorem C17_own_writes_are_marks_on_failure (env : Env) (s : SDKSessionData) :
    (selectEntryToProcess env s = none →
      ∀ m, Effect.MarkModNoRetry m ∉ (ProcessNextModInUserCollection env s).Trace) ∧
    (∀ e, selectEntryToProcess env s = some e →
      (s.GetModState e = ModState.InstallationPending ∨
        s.GetModState e = ModState.UpdatePending) →
      (env.InstallOrUpdateModAsync e s).2.Value = 0 →
      ∀ m, Effect.MarkModNoRetry m ∉ (ProcessNextModInUserCollection env s).Trace) ∧
    (∀ e, selectEntryToProcess env s = some e →
      s.GetModState e = ModState.UninstallPending →
      (env.UninstallModAsync e s).2.Value = 0 →
      ∀ m, Effect.MarkModNoRetry m ∉ (ProcessNextModInUserCollection env s).Trace) ∧
    (∀ m, Effect.MarkModNoRetry m ∈ (ProcessNextModInUserCollection env s).Trace →
      selectEntryToProcess env s = some m) ∧
    (OperationsLeaveEntries env → ∀ m,
      (ProcessNextModInUserCollection env s).Session.GetModState m = s.GetModState m ∧
      ((s.Entry m).ShouldNotRetry = true →
        ((ProcessNextModInUserCollection env s).Session.Entry m).ShouldNotRetry = true) ∧
      ((ProcessNextModInUserCollection env s).Session.Entry m ≠ s.Entry m →
        Effect.MarkModNoRetry m ∈ (ProcessNextModInUserCollection env s).Trace)) := by
  refine ⟨?_, ?_, ?_, ?_, ?_⟩
  · intro hsel m
    rw [run_of_select_none env s hsel]; simp
  · intro e hsel hst hv m
    have herr : (env.InstallOrUpdateModAsync e s).2.isError = false := by
      simp [ErrorCode.isError, hv]
    rw [ProcessNextModInUserCollection, hsel, dispatch_install env s e hst,
      installOrUpdateBranch_trace]
    simp [herr]
  · intro e hsel hst hv m
    have herr : (env.UninstallModAsync e s).2.isError = false := by
      simp [ErrorCode.isError, hv]
    rw [ProcessNextModInUserCollection, hsel, dispatch_uninstall env s e hst,
      uninstallBranch_trace]
    simp [herr]
  · intro m
    cases hsel : selectEntryToProcess env s with
    | none => rw [run_of_select_none env s hsel]; simp
    | some e =>
      rcases selectEntryToProcess_some env s e hsel with ⟨hst, -⟩ | ⟨hst, -⟩
      · rw [ProcessNextModInUserCollection, hsel, dispatch_uninstall env s e hst,
          uninstallBranch_trace]
        by_cases herr : (env.UninstallModAsync e s).2.isError = true
        · simp only [herr, if_true]
          simp
          exact fun h => h.symm
        · simp [herr]
      · rw [ProcessNextModInUserCollection, hsel, dispatch_install env s e hst,
          installOrUpdateBranch_trace]
        split_ifs <;> simp <;> exact fun h => h.symm
  · rintro ⟨hI, hU, hS⟩ m
    cases hsel : selectEntryToProcess env s with
    | none => rw [run_of_select_none env s hsel]; simp
    | some e =>
      rcases selectEntryToProcess_some env s e hsel with ⟨hst, -⟩ | ⟨hst, -⟩
      · rw [ProcessNextModInUserCollection, hsel, dispatch_uninstall env s e hst]
        unfold uninstallBranch
        by_cases herr : (env.UninstallModAsync e s).2.isError = true <;>
        by_cases hm : m = e <;>
          simp [herr, hm, Run.UninstallModAsync, Run.AddEntry, Run.MarkModNoRetry,
            Run.complete, Run.SaveModCollectionToStorageAsync, SDKSessionData.MarkModNoRetry,
            SDKSessionData.AddEntry, SDKSessionData.GetModState, hU, hS]
      · rw [ProcessNextModInUserCollection, hsel, dispatch_install env s e hst]
        unfold installOrUpdateBranch installFailed
        by_cases herr : (env.InstallOrUpdateModAsync e s).2.isError = true
        · by_cases h1 : env.ErrorCodeMatches (env.InstallOrUpdateModAsync e s).2
              ErrorConditionTypes.NetworkError = true ∧
              (env.InstallOrUpdateModAsync e s).2 ≠ env.InstallOrUpdateCancelled <;>
          by_cases h2 : env.ErrorCodeMatches (env.InstallOrUpdateModAsync e s).2
              ErrorConditionTypes.ModInstallDeferredError = true <;>
          by_cases h3 : env.ErrorCodeMatchesApi (env.InstallOrUpdateModAsync e s).2
              ApiError.ExpiredOrRevokedAccessToken = true <;>
          by_cases hm : m = e <;>
          simp [herr, h1, h2, h3, hm, Run.InstallOrUpdateModAsync, Run.AddEntry,
            Run.MarkModNoRetry, Run.complete, SDKSessionData.MarkModNoRetry,
            SDKSessionData.AddEntry, SDKSessionData.GetModState, hI]
        · simp [herr, Run.InstallOrUpdateModAsync, Run.AddEntry, Run.complete,
            Run.SaveModCollectionToStorageAsync, SDKSessionData.AddEntry,
            SDKSessionData.GetModState, hI, hS]

/-- Witness of C17 with operations that fail and leave the entries as they are:
the update of mod 3 fails with a network error; mod 3 keeps its state and gets
the flag, mod 2 is as before. -/
theorem C17_witness :
    (ProcessNextModInUserCollection
        (sampleEnv sampleNetworkError sampleNetworkError sampleOtherError)
        installSession).Session.GetModState 3 = ModState.UpdatePending ∧
      Effect.MarkModNoRetry 3 ∈ (ProcessNextModInUserCollection
        (sampleEnv sampleNetworkError sampleNetworkError sampleOtherError)
        installSession).Trace ∧
      (ProcessNextModInUserCollection
        (sampleEnv sampleNetworkError sampleNetworkError sampleOtherError)
        installSession).Session.GetModState 2 = ModState.InstallationPending ∧
      ∀ m, Effect.MarkModNoRetry m ∉ (ProcessNextModInUserCollection
        (sampleEnv ErrorCode.empty ErrorCode.empty ErrorCode.empty) installSession).Trace :=
  ⟨((C17_own_writes_are_marks_on_failure
      (sampleEnv sampleNetworkError sampleNetworkError sampleOtherError) installSession).2.2.2.2
      ⟨fun _ _ => rfl, fun _ _ => rfl, fun _ => rfl⟩ 3).1.trans (by decide),
    ((C17_own_writes_are_marks_on_failure
      (sampleEnv sampleNetworkError sampleNetworkError sampleOtherError) installSession).2.2.2.2
      ⟨fun _ _ => rfl, fun _ _ => rfl, fun _ => rfl⟩ 3).2.2 (by decide),
    ((C17_own_writes_are_marks_on_failure
      (sampleEnv sampleNetworkError sampleNetworkError sampleOtherError) installSession).2.2.2.2
      ⟨fun _ _ => rfl, fun _ _ => rfl, fun _ => rfl⟩ 2).1.trans (by decide),
    (C17_own_writes_are_marks_on_failure
      (sampleEnv ErrorCode.empty ErrorCode.empty ErrorCode.empty) installSession).2.1 3
      (by decide) (by decide) (by decide)⟩

end Modio
